import Mathlib

/-!
# glogger: a leveled logging facade

A shallow embedding of `logger.go`.

Modelling conventions.

* Go strings are modelled by `String`, the length test `len(x) > 0` by
  `x.length > 0`, and string concatenation by `++`.
* The process environment is a function from variable names to values;
  `os.Getenv` returns the empty string for an unset variable, so unset and empty
  are the same value `""`. The environment handed to a function is the one in
  effect after the best-effort `godotenv.Load()`.
* Go `int` is modelled by `Nat`. The only arithmetic is the sum of flag values
  (non-negative constants, each at most 64) over the pieces of one environment
  value, starting from 0; it is never negative and stays far below `2^63` for
  any value that fits in memory.
* The package variables `logLevelDebug`, `logLevelInfo`, `logLevelWarn`,
  `logLevelError` and `logLevel` are the fields of `State`; functions that assign
  to them return the new state.
* Writing a line through `log.Logger.Output` is modelled by the value `Emission`
  that records the stream, the logger's line prefix, its flags, and the format
  string and operands handed to `fmt.Sprintf`.
-/

namespace Glogger

/-! ## Constants of Go's `log` package -/

def Ldate : Nat := 1
def Ltime : Nat := 2
def Lmicroseconds : Nat := 4
def Llongfile : Nat := 8
def Lshortfile : Nat := 16
def LUTC : Nat := 32
def Lmsgprefix : Nat := 64
def LstdFlags : Nat := 3

/-! ## Data model -/

/-- The struct `LogLevel`. The Go field `prefix` is spelled `prefix_` here. -/
structure LogLevel where
  name : String
  level : Nat
  prefix_ : String
  formatterFlag : Nat
  deriving DecidableEq, Repr

/-- The process environment as seen by `os.Getenv`. -/
abbrev Env := String → String

/-- The package-level variables. -/
structure State where
  logLevelDebug : LogLevel
  logLevelInfo : LogLevel
  logLevelWarn : LogLevel
  logLevelError : LogLevel
  logLevel : LogLevel
  deriving DecidableEq, Repr

/-- The two output streams. -/
inductive Stream where
  | stdout
  | stderr
  deriving DecidableEq, Repr

/-- One call of `log.Logger.Output` on a logger made by `log.New(stream, linePrefix, flags)`,
with message `fmt.Sprintf(format, args...)`. -/
structure Emission where
  stream : Stream
  linePrefix : String
  flags : Nat
  format : String
  args : List String
  deriving DecidableEq, Repr

/-- The bytes one emission writes: the header the logger builds from its prefix,
flags, clock and call site, then the rendered message, then a newline unless the
message already ends in one. The header and the formatting primitive are
external and passed in. -/
def Emission.text (e : Emission) (sprintf : String → List String → String)
    (header : String) : String :=
  if (sprintf e.format e.args).data.getLast? = some '\n' then
    header ++ sprintf e.format e.args
  else
    header ++ sprintf e.format e.args ++ "\n"

/-! ## Methods of `LogLevel` -/

/-- `func (l *LogLevel) isLowerOrEqualThan(log LogLevel) bool` -/
def LogLevel.isLowerOrEqualThan (l : LogLevel) (log : LogLevel) : Bool :=
  decide (l.level ≤ log.level)

/-- `func (l *LogLevel) getPrefix() string` -/
def LogLevel.getPrefix (l : LogLevel) : String :=
  if l.prefix_.length > 0 then
    l.name ++ ": " ++ l.prefix_ ++ " "
  else
    l.name ++ ": "

/-! ## Package variables at their declared values -/

/-- The zero value of `LogLevel`. -/
def zeroLogLevel : LogLevel := ⟨"", 0, "", 0⟩

/-- The variables as their declarations set them, before `logLevel` is
initialised by the first `checkLogLevel()`. -/
def declared : State where
  logLevelDebug := ⟨"DEBUG", 1, "", Ldate ||| Ltime ||| Lshortfile⟩
  logLevelInfo := ⟨"INFO", 2, "", Ldate ||| Ltime ||| Lshortfile⟩
  logLevelWarn := ⟨"WARN", 3, "", Ldate ||| Ltime ||| Lshortfile⟩
  logLevelError := ⟨"ERROR", 4, "", Ldate ||| Ltime ||| Llongfile⟩
  logLevel := zeroLogLevel

/-! ## Reading the environment -/

/-- `func loadPrefix(level string) string` -/
def loadPrefix (env : Env) (level : String) : String :=
  let prefixKey := "G_LOG_PREFIX"
  if level.length > 0 then
    let prefixLevel := env (prefixKey ++ "_" ++ level)
    if prefixLevel.length > 0 then
      prefixLevel
    else
      env prefixKey
  else
    env prefixKey

/-- The pieces of a character list between occurrences of the bar character:
`strings.Split(s, "|")` on the characters of `s`. -/
def splitBar : List Char → List (List Char)
  | [] => [[]]
  | c :: cs =>
    if c = '|' then
      [] :: splitBar cs
    else
      match splitBar cs with
      | [] => [[c]]
      | piece :: pieces => (c :: piece) :: pieces

/-- `strings.Split(s, "|")` -/
def split (s : String) : List String :=
  (splitBar s.data).map String.mk

/-- One iteration of the loop in `formatter`: the chain of comparisons applied
to one piece, updating the accumulator `flag`. -/
def formatterStep (flag : Nat) (value : String) : Nat :=
  if value = "Ldate" then flag + Ldate
  else if value = "Ltime" then flag + Ltime
  else if value = "Lmicroseconds" then flag + Lmicroseconds
  else if value = "Llongfile" then flag + Llongfile
  else if value = "Lshortfile" then flag + Lshortfile
  else if value = "LUTC" then flag + LUTC
  else if value = "Lmsgprefix" then flag + Lmsgprefix
  else if value = "LstdFlags" then flag + LstdFlags
  else flag

/-- `func formatter(level string) int` -/
def formatter (env : Env) (level : String) : Nat :=
  let formatKey := "G_LOG_FORMAT"
  let formatKey := if level.length > 0 then formatKey ++ "_" ++ level else formatKey
  let format := env formatKey
  if format.length ≤ 0 then
    0
  else
    let flags := split format
    flags.foldl formatterStep 0

/-! ## Configuration resolution -/

/-- What one call of `checkLogLevel` does: the value it returns, the package
variables afterwards, and the line its internal logger writes. -/
structure CheckResult where
  ret : LogLevel
  state : State
  out : List Emission
  deriving DecidableEq, Repr

/-- `func checkLogLevel() LogLevel`. The four level variables are threaded as
`debug`, `info`, `warn`, `error` through the assignments and written back to the
state that is returned. -/
def checkLogLevel (env : Env) (s : State) : CheckResult :=
  let level := env "G_LOG_LEVEL"
  let out := [Emission.mk Stream.stdout "" LstdFlags "Log Level: %v" [level]]
  if level.length ≤ 0 then
    ⟨s.logLevelDebug, s, out⟩
  else
    let debug := { s.logLevelDebug with prefix_ := loadPrefix env s.logLevelDebug.name }
    let info := { s.logLevelInfo with prefix_ := loadPrefix env s.logLevelInfo.name }
    let warn := { s.logLevelWarn with prefix_ := loadPrefix env s.logLevelWarn.name }
    let error := { s.logLevelError with prefix_ := loadPrefix env s.logLevelError.name }
    let debug :=
      if formatter env debug.name > 0 then { debug with formatterFlag := formatter env debug.name }
      else debug
    let info :=
      if formatter env info.name > 0 then { info with formatterFlag := formatter env info.name }
      else info
    let warn :=
      if formatter env warn.name > 0 then { warn with formatterFlag := formatter env warn.name }
      else warn
    let error :=
      if formatter env error.name > 0 then { error with formatterFlag := formatter env error.name }
      else error
    let s := { s with
      logLevelDebug := debug, logLevelInfo := info, logLevelWarn := warn, logLevelError := error }
    if debug.name = level then ⟨debug, s, out⟩
    else if info.name = level then ⟨info, s, out⟩
    else if warn.name = level then ⟨warn, s, out⟩
    else if error.name = level then ⟨error, s, out⟩
    else ⟨debug, s, out⟩

/-- `func UpdateLogLevel()` -/
def UpdateLogLevel (env : Env) (s : State) : State :=
  let r := checkLogLevel env s
  { r.state with logLevel := r.ret }

/-- `func GetLogLevel() LogLevel` -/
def GetLogLevel (s : State) : LogLevel :=
  s.logLevel

/-! ## Emission entry points -/

/-- `func Debug(format string, v ...interface{})` -/
def Debug (s : State) (format : String) (v : List String) : List Emission :=
  if s.logLevel.isLowerOrEqualThan s.logLevelDebug then
    [⟨Stream.stdout, s.logLevelDebug.getPrefix, s.logLevelDebug.formatterFlag, format, v⟩]
  else
    []

/-- `func Info(format string, v ...interface{})` -/
def Info (s : State) (format : String) (v : List String) : List Emission :=
  if s.logLevel.isLowerOrEqualThan s.logLevelInfo then
    [⟨Stream.stdout, s.logLevelInfo.getPrefix, s.logLevelInfo.formatterFlag, format, v⟩]
  else
    []

/-- `func Warn(format string, v ...interface{})` -/
def Warn (s : State) (format : String) (v : List String) : List Emission :=
  if s.logLevel.isLowerOrEqualThan s.logLevelWarn then
    [⟨Stream.stderr, s.logLevelWarn.getPrefix, s.logLevelWarn.formatterFlag, format, v⟩]
  else
    []

/-- `func Error(format string, v ...interface{})` -/
def Error (s : State) (format : String) (v : List String) : List Emission :=
  if s.logLevel.isLowerOrEqualThan s.logLevelError then
    [⟨Stream.stderr, s.logLevelError.getPrefix, s.logLevelError.formatterFlag, format, v⟩]
  else
    []

/-- What a call of `Fatal` does: the lines written and the status handed to
`os.Exit`. -/
structure FatalResult where
  out : List Emission
  exitStatus : Nat
  deriving DecidableEq, Repr

/-- `func Fatal(format string, v ...interface{})` -/
def Fatal (s : State) (format : String) (v : List String) : FatalResult :=
  ⟨[⟨Stream.stderr, s.logLevelError.getPrefix, s.logLevelError.formatterFlag, format, v⟩], 1⟩

/-! ## Package initialisation and sequences of calls -/

/-- The package variables after initialisation under environment `env`:
`var logLevel LogLevel = checkLogLevel()` runs on the declared level variables. -/
def initial (env : Env) : State :=
  UpdateLogLevel env declared

/-- One call that assigns package variables, with the environment it runs under. -/
inductive Call where
  | UpdateLogLevel (env : Env)
  | checkLogLevel (env : Env)

/-- The environment a call runs under. -/
def Call.env : Call → Env
  | Call.UpdateLogLevel env => env
  | Call.checkLogLevel env => env

/-- The package variables after one call. -/
def Call.apply (c : Call) (s : State) : State :=
  match c with
  | Call.UpdateLogLevel env => Glogger.UpdateLogLevel env s
  | Call.checkLogLevel env => (Glogger.checkLogLevel env s).state

/-- The package variables after a sequence of calls, first call first. -/
def run (s : State) (calls : List Call) : State :=
  calls.foldl (fun s c => c.apply s) s

/-! ## Helpers for concrete environments -/

/-- An environment given by a finite list of bindings; every other variable is unset. -/
def envOf (bindings : List (String × String)) : Env :=
  fun key => (bindings.lookup key).getD ""

/-- `os.Setenv(key, value)` -/
def setenv (env : Env) (key value : String) : Env :=
  fun k => if k = key then value else env k

/-! ## Specification-side definitions -/

/-- The value of one piece of a format value, as the specification words it:
the eight flag names map to their values, every other string to 0. -/
def tokenValue (piece : String) : Nat :=
  if piece = "Ldate" then 1
  else if piece = "Ltime" then 2
  else if piece = "Lmicroseconds" then 4
  else if piece = "Llongfile" then 8
  else if piece = "Lshortfile" then 16
  else if piece = "LUTC" then 32
  else if piece = "Lmsgprefix" then 64
  else if piece = "LstdFlags" then 3
  else 0

/-- The eight recognized flag names. -/
def recognizedTokens : List String :=
  ["Ldate", "Ltime", "Lmicroseconds", "Llongfile", "Lshortfile", "LUTC", "Lmsgprefix", "LstdFlags"]

/-- The sum, over the pieces of a format value, of the value of each piece. -/
def formatSum (value : String) : Nat :=
  ((split value).map tokenValue).sum

/-- The variable `formatter` reads for a level argument. -/
def formatKey (level : String) : String :=
  if level = "" then "G_LOG_FORMAT" else "G_LOG_FORMAT_" ++ level

/-- The level-specific variable `loadPrefix` reads for a non-empty level argument. -/
def prefixKey (level : String) : String :=
  "G_LOG_PREFIX_" ++ level

/-- A format value has a piece that is one of the eight flag names. -/
def HasRecognized (value : String) : Prop :=
  ∃ piece ∈ split value, piece ∈ recognizedTokens

/-- The four level variables keep the names and ranks of their declarations. -/
def State.Canonical (s : State) : Prop :=
  (s.logLevelDebug.name = "DEBUG" ∧ s.logLevelDebug.level = 1) ∧
  (s.logLevelInfo.name = "INFO" ∧ s.logLevelInfo.level = 2) ∧
  (s.logLevelWarn.name = "WARN" ∧ s.logLevelWarn.level = 3) ∧
  (s.logLevelError.name = "ERROR" ∧ s.logLevelError.level = 4)

instance (s : State) : Decidable s.Canonical := by
  unfold State.Canonical
  infer_instance

/-- One level variable after the assignments of `checkLogLevel` that follow its
early return: the prefix is reloaded, the flags are replaced when `formatter`
gives a positive value. -/
def resolvedLevel (env : Env) (l : LogLevel) : LogLevel :=
  { l with
    prefix_ := loadPrefix env l.name
    formatterFlag := if formatter env l.name > 0 then formatter env l.name else l.formatterFlag }

/-- The four level variables with the names of their declarations. -/
def levelVars : List (String × (State → LogLevel)) :=
  [("DEBUG", State.logLevelDebug), ("INFO", State.logLevelInfo),
   ("WARN", State.logLevelWarn), ("ERROR", State.logLevelError)]

/-- The declared flags of a level variable, by the name of the level:
`Ldate|Ltime|Llongfile` for ERROR and `Ldate|Ltime|Lshortfile` for the others. -/
def defaultFlags (name : String) : Nat :=
  if name = "ERROR" then 11 else 19

/-- The pieces of a format value that are recognized tokens, in order. -/
def matchedTokens (value : String) : List String :=
  (split value).filter (fun piece => decide (piece ∈ recognizedTokens))

/-- The bitwise OR of a list of flag values. -/
def orAll (values : List Nat) : Nat :=
  values.foldr (fun a b => a ||| b) 0

/-- The name and rank of a level, as a pair. -/
def LogLevel.nameRank (l : LogLevel) : String × Nat :=
  (l.name, l.level)

/-! ## Basic lemmas on strings and keys -/

theorem length_pos_iff_ne_empty (x : String) : x.length > 0 ↔ x ≠ "" := by
  rw [gt_iff_lt, String.length, List.length_pos]
  constructor
  · intro h hx
    exact h (by rw [hx])
  · intro h hx
    exact h (String.ext hx)

theorem length_le_zero_iff_eq_empty (x : String) : x.length ≤ 0 ↔ x = "" := by
  have h := length_pos_iff_ne_empty x
  constructor
  · intro hle
    by_contra hne
    exact absurd (h.mpr hne) (by omega)
  · intro hx
    rw [hx]
    decide

theorem format_key_append (level : String) :
    "G_LOG_FORMAT" ++ "_" ++ level = "G_LOG_FORMAT_" ++ level := by
  rw [String.append_assoc]
  rfl

theorem prefix_key_append (level : String) :
    "G_LOG_PREFIX" ++ "_" ++ level = "G_LOG_PREFIX_" ++ level := by
  rw [String.append_assoc]
  rfl

/-! ## The loop of `formatter` -/

theorem formatterStep_eq_add (flag : Nat) (value : String) :
    formatterStep flag value = flag + tokenValue value := by
  unfold formatterStep tokenValue
  split_ifs <;> rfl

theorem foldl_formatterStep (pieces : List String) (flag : Nat) :
    pieces.foldl formatterStep flag = flag + (pieces.map tokenValue).sum := by
  induction pieces generalizing flag with
  | nil => simp
  | cons piece rest ih =>
    rw [List.foldl_cons, ih, formatterStep_eq_add, List.map_cons, List.sum_cons, Nat.add_assoc]

theorem formatter_key (level : String) :
    (if level.length > 0 then "G_LOG_FORMAT" ++ "_" ++ level else "G_LOG_FORMAT")
      = formatKey level := by
  unfold formatKey
  by_cases h : level = ""
  · subst h
    decide
  · rw [if_pos ((length_pos_iff_ne_empty level).mpr h), if_neg h, format_key_append]

theorem formatSum_empty : formatSum "" = 0 := by decide

theorem formatter_eq_formatSum (env : Env) (level : String) :
    formatter env level = formatSum (env (formatKey level)) := by
  unfold formatter
  simp only [formatter_key]
  by_cases h : env (formatKey level) = ""
  · rw [if_pos ((length_le_zero_iff_eq_empty _).mpr h), h, formatSum_empty]
  · rw [if_neg (fun hle => h ((length_le_zero_iff_eq_empty _).mp hle)), foldl_formatterStep,
      Nat.zero_add]
    rfl

theorem tokenValue_pos_iff (piece : String) :
    0 < tokenValue piece ↔ piece ∈ recognizedTokens := by
  unfold tokenValue recognizedTokens
  split_ifs <;> simp_all

theorem formatSum_pos_iff (value : String) : 0 < formatSum value ↔ HasRecognized value := by
  unfold formatSum HasRecognized
  rw [Nat.pos_iff_ne_zero, Ne, List.sum_eq_zero_iff]
  constructor
  · intro h
    by_contra hno
    apply h
    intro x hx
    obtain ⟨piece, hmem, rfl⟩ := List.mem_map.mp hx
    by_contra hne
    exact hno ⟨piece, hmem, (tokenValue_pos_iff piece).mp (Nat.pos_of_ne_zero hne)⟩
  · rintro ⟨piece, hmem, hrec⟩ h
    have hz := h (tokenValue piece) (List.mem_map.mpr ⟨piece, hmem, rfl⟩)
    have hp := (tokenValue_pos_iff piece).mpr hrec
    omega

/-! ## Splitting and appending -/

theorem splitBar_ne_nil (cs : List Char) : splitBar cs ≠ [] := by
  cases cs with
  | nil => simp [splitBar]
  | cons c cs =>
    unfold splitBar
    split_ifs
    · simp
    · split <;> simp

theorem splitBar_append_bar (a b : List Char) :
    splitBar (a ++ '|' :: b) = splitBar a ++ splitBar b := by
  induction a with
  | nil => simp [splitBar]
  | cons c cs ih =>
    by_cases hc : c = '|'
    · simp [splitBar, hc, ih]
    · have hne := splitBar_ne_nil cs
      simp only [List.cons_append, splitBar, hc, if_false, List.append_eq]
      cases hs : splitBar cs with
      | nil => exact absurd hs hne
      | cons piece pieces =>
        rw [ih, hs]
        rfl

theorem splitBar_no_bar (t : List Char) (h : '|' ∉ t) : splitBar t = [t] := by
  induction t with
  | nil => rfl
  | cons c cs ih =>
    have hc : c ≠ '|' := fun e => h (by simp [e])
    have hcs : '|' ∉ cs := fun e => h (List.mem_cons_of_mem _ e)
    simp [splitBar, hc, ih hcs]

theorem split_append_token (value token : String) (h : '|' ∉ token.data) :
    split (value ++ "|" ++ token) = split value ++ [token] := by
  unfold split
  have hdata : (value ++ "|" ++ token).data = value.data ++ '|' :: token.data := by
    simp [String.data_append]
  rw [hdata, splitBar_append_bar, splitBar_no_bar _ h]
  simp

theorem recognized_no_bar (token : String) (h : token ∈ recognizedTokens) :
    '|' ∉ token.data := by
  unfold recognizedTokens at h
  simp only [List.mem_cons, List.mem_singleton, List.not_mem_nil, or_false] at h
  rcases h with h | h | h | h | h | h | h | h <;> subst h <;> decide

theorem formatSum_append_token (value token : String) (h : token ∈ recognizedTokens) :
    formatSum (value ++ "|" ++ token) = formatSum value + tokenValue token := by
  unfold formatSum
  rw [split_append_token value token (recognized_no_bar token h)]
  simp

/-! ## What `checkLogLevel` computes -/

theorem resolvedLevel_eq_ite (env : Env) (l : LogLevel) :
    (if formatter env l.name > 0 then
        ({ name := l.name, level := l.level, prefix_ := loadPrefix env l.name,
           formatterFlag := formatter env l.name } : LogLevel)
      else
        { name := l.name, level := l.level, prefix_ := loadPrefix env l.name,
          formatterFlag := l.formatterFlag }) = resolvedLevel env l := by
  unfold resolvedLevel
  split_ifs <;> rfl

theorem checkLogLevel_eq (env : Env) (s : State) :
    checkLogLevel env s =
      if env "G_LOG_LEVEL" = "" then
        ⟨s.logLevelDebug, s, [⟨Stream.stdout, "", LstdFlags, "Log Level: %v", [env "G_LOG_LEVEL"]⟩]⟩
      else
        ⟨if s.logLevelDebug.name = env "G_LOG_LEVEL" then resolvedLevel env s.logLevelDebug
          else if s.logLevelInfo.name = env "G_LOG_LEVEL" then resolvedLevel env s.logLevelInfo
          else if s.logLevelWarn.name = env "G_LOG_LEVEL" then resolvedLevel env s.logLevelWarn
          else if s.logLevelError.name = env "G_LOG_LEVEL" then resolvedLevel env s.logLevelError
          else resolvedLevel env s.logLevelDebug,
         { logLevelDebug := resolvedLevel env s.logLevelDebug
           logLevelInfo := resolvedLevel env s.logLevelInfo
           logLevelWarn := resolvedLevel env s.logLevelWarn
           logLevelError := resolvedLevel env s.logLevelError
           logLevel := s.logLevel },
         [⟨Stream.stdout, "", LstdFlags, "Log Level: %v", [env "G_LOG_LEVEL"]⟩]⟩ := by
  unfold checkLogLevel
  simp only [length_le_zero_iff_eq_empty, resolvedLevel_eq_ite]
  have hname : ∀ l, (resolvedLevel env l).name = l.name := fun _ => rfl
  simp only [hname]
  split_ifs <;> rfl

theorem checkLogLevel_state (env : Env) (s : State) :
    (checkLogLevel env s).state =
      if env "G_LOG_LEVEL" = "" then s
      else
        { logLevelDebug := resolvedLevel env s.logLevelDebug
          logLevelInfo := resolvedLevel env s.logLevelInfo
          logLevelWarn := resolvedLevel env s.logLevelWarn
          logLevelError := resolvedLevel env s.logLevelError
          logLevel := s.logLevel } := by
  rw [checkLogLevel_eq]
  by_cases h : env "G_LOG_LEVEL" = ""
  · rw [if_pos h, if_pos h]
  · rw [if_neg h, if_neg h]

theorem checkLogLevel_ret (env : Env) (s : State) :
    (checkLogLevel env s).ret =
      if env "G_LOG_LEVEL" = "" then s.logLevelDebug
      else if s.logLevelDebug.name = env "G_LOG_LEVEL" then resolvedLevel env s.logLevelDebug
      else if s.logLevelInfo.name = env "G_LOG_LEVEL" then resolvedLevel env s.logLevelInfo
      else if s.logLevelWarn.name = env "G_LOG_LEVEL" then resolvedLevel env s.logLevelWarn
      else if s.logLevelError.name = env "G_LOG_LEVEL" then resolvedLevel env s.logLevelError
      else resolvedLevel env s.logLevelDebug := by
  rw [checkLogLevel_eq]
  by_cases h : env "G_LOG_LEVEL" = ""
  · rw [if_pos h, if_pos h]
  · rw [if_neg h, if_neg h]

theorem declared_canonical : declared.Canonical := by decide

theorem canonical_checkLogLevel (env : Env) (s : State) (hs : s.Canonical) :
    (checkLogLevel env s).state.Canonical := by
  rw [checkLogLevel_state]
  split_ifs
  · exact hs
  · exact hs

theorem canonical_UpdateLogLevel (env : Env) (s : State) (hs : s.Canonical) :
    (UpdateLogLevel env s).Canonical :=
  canonical_checkLogLevel env s hs

theorem gate_nonempty_iff (p : Prop) [Decidable p] (e : Emission) :
    (if p then [e] else []) ≠ [] ↔ p := by
  by_cases h : p <;> simp [h]

/-! ## Gating -/

/-- C1: each of Debug, Info, Warn, Error produces output exactly when the rank of
the threshold held in `logLevel` is at most the rank of the entry point's own
level. With `G_LOG_LEVEL=INFO` resolved from any state whose levels keep their
declared names and ranks, `Debug("x")` writes nothing and `Info("Test: %v", "INFO")`
writes one line to standard output whose text contains `Test: INFO` for every
header, given that the formatting primitive renders that call as `Test: INFO`. -/
theorem gated_output_iff_threshold_le_own :
    (∀ (s : State) (format : String) (v : List String),
      (Debug s format v ≠ [] ↔ s.logLevel.level ≤ s.logLevelDebug.level) ∧
      (Info s format v ≠ [] ↔ s.logLevel.level ≤ s.logLevelInfo.level) ∧
      (Warn s format v ≠ [] ↔ s.logLevel.level ≤ s.logLevelWarn.level) ∧
      (Error s format v ≠ [] ↔ s.logLevel.level ≤ s.logLevelError.level)) ∧
    (∀ (env : Env) (s : State), s.Canonical → env "G_LOG_LEVEL" = "INFO" →
      Debug (UpdateLogLevel env s) "x" [] = [] ∧
      ∃ e, Info (UpdateLogLevel env s) "Test: %v" ["INFO"] = [e] ∧
        e.stream = Stream.stdout ∧
        ∀ (sprintf : String → List String → String) (header : String),
          sprintf "Test: %v" ["INFO"] = "Test: INFO" →
            "Test: INFO".data <:+: (e.text sprintf header).data) ∧
    Debug (UpdateLogLevel (envOf [("G_LOG_LEVEL", "INFO")]) declared) "x" [] = [] ∧
    Info (UpdateLogLevel (envOf [("G_LOG_LEVEL", "INFO")]) declared) "Test: %v" ["INFO"]
      = [⟨Stream.stdout, "INFO: ", 19, "Test: %v", ["INFO"]⟩] := by
  refine ⟨?_, ?_, by decide, by decide⟩
  · intro s format v
    simp only [Debug, Info, Warn, Error, gate_nonempty_iff, LogLevel.isLowerOrEqualThan,
      decide_eq_true_eq, and_self]
  · intro env s hs hl
    obtain ⟨⟨hdn, hdl⟩, ⟨hin, hil⟩, ⟨hwn, hwl⟩, ⟨hen, hel⟩⟩ := hs
    have hne : env "G_LOG_LEVEL" ≠ "" := by rw [hl]; decide
    have hret : (UpdateLogLevel env s).logLevel = resolvedLevel env s.logLevelInfo := by
      show (checkLogLevel env s).ret = _
      rw [checkLogLevel_ret, if_neg hne, hdn, hin, hl, if_neg (by decide), if_pos rfl]
    have hdebug : (UpdateLogLevel env s).logLevelDebug = resolvedLevel env s.logLevelDebug := by
      show (checkLogLevel env s).state.logLevelDebug = _
      rw [checkLogLevel_state, if_neg hne]
    have hinfo : (UpdateLogLevel env s).logLevelInfo = resolvedLevel env s.logLevelInfo := by
      show (checkLogLevel env s).state.logLevelInfo = _
      rw [checkLogLevel_state, if_neg hne]
    constructor
    · simp only [Debug, hret, hdebug, LogLevel.isLowerOrEqualThan, resolvedLevel, hdl, hil]
      rfl
    · refine ⟨⟨Stream.stdout, (resolvedLevel env s.logLevelInfo).getPrefix,
        (resolvedLevel env s.logLevelInfo).formatterFlag, "Test: %v", ["INFO"]⟩, ?_, rfl, ?_⟩
      · simp only [Info, hret, hinfo, LogLevel.isLowerOrEqualThan, le_refl, decide_True, if_true]
      · intro sprintf header hfmt
        simp only [Emission.text, hfmt]
        rw [if_neg (by decide)]
        simp only [String.data_append]
        exact ⟨header.data, "\n".data, by simp⟩

/-- C2 (as stated, refuted): with the threshold resolved from `G_LOG_LEVEL=INFO`,
the rank of DEBUG is at most the rank of the threshold, yet `Debug` does not emit;
so "emits iff own rank <= threshold rank" fails for `Debug`. -/
theorem debug_not_emitted_though_own_le_threshold :
    ¬ (Debug (UpdateLogLevel (envOf [("G_LOG_LEVEL", "INFO")]) declared) "x" [] ≠ [] ↔
        (UpdateLogLevel (envOf [("G_LOG_LEVEL", "INFO")]) declared).logLevelDebug.level
          ≤ (UpdateLogLevel (envOf [("G_LOG_LEVEL", "INFO")]) declared).logLevel.level) := by
  decide

/-- C2 (amended): each of Debug, Info, Warn, Error decides whether to emit by
calling `isLowerOrEqualThan` on the configured threshold with its own level as
the argument, so the call emits exactly when the threshold's rank is at most the
own level's rank. -/
theorem gate_applies_comparison_to_threshold (s : State) (format : String) (v : List String) :
    (Debug s format v ≠ [] ↔ s.logLevel.isLowerOrEqualThan s.logLevelDebug = true) ∧
    (Info s format v ≠ [] ↔ s.logLevel.isLowerOrEqualThan s.logLevelInfo = true) ∧
    (Warn s format v ≠ [] ↔ s.logLevel.isLowerOrEqualThan s.logLevelWarn = true) ∧
    (Error s format v ≠ [] ↔ s.logLevel.isLowerOrEqualThan s.logLevelError = true) ∧
    (∀ own : LogLevel, s.logLevel.isLowerOrEqualThan own = true ↔ s.logLevel.level ≤ own.level) := by
  refine ⟨?_, ?_, ?_, ?_, ?_⟩
  · simp only [Debug, gate_nonempty_iff]
  · simp only [Info, gate_nonempty_iff]
  · simp only [Warn, gate_nonempty_iff]
  · simp only [Error, gate_nonempty_iff]
  · intro own
    simp only [LogLevel.isLowerOrEqualThan, decide_eq_true_eq]

/-! ## Resolving the threshold -/

/-- C3: from any state whose levels keep their declared names and ranks,
`checkLogLevel` returns (INFO, 2), (WARN, 3) or (ERROR, 4) exactly when
`G_LOG_LEVEL` is that name character for character, and returns (DEBUG, 1) for
every other value: the name `DEBUG` itself, unset or empty, and any other string. -/
theorem checkLogLevel_returns_named_level (env : Env) (s : State) (hs : s.Canonical) :
    (((checkLogLevel env s).ret.name = "INFO" ∧ (checkLogLevel env s).ret.level = 2)
      ↔ env "G_LOG_LEVEL" = "INFO") ∧
    (((checkLogLevel env s).ret.name = "WARN" ∧ (checkLogLevel env s).ret.level = 3)
      ↔ env "G_LOG_LEVEL" = "WARN") ∧
    (((checkLogLevel env s).ret.name = "ERROR" ∧ (checkLogLevel env s).ret.level = 4)
      ↔ env "G_LOG_LEVEL" = "ERROR") ∧
    (((checkLogLevel env s).ret.name = "DEBUG" ∧ (checkLogLevel env s).ret.level = 1)
      ↔ env "G_LOG_LEVEL" ∉ ["INFO", "WARN", "ERROR"]) ∧
    (env "G_LOG_LEVEL" = "DEBUG" →
      (checkLogLevel env s).ret.name = "DEBUG" ∧ (checkLogLevel env s).ret.level = 1) := by
  obtain ⟨⟨hdn, hdl⟩, ⟨hin, hil⟩, ⟨hwn, hwl⟩, ⟨hen, hel⟩⟩ := hs
  have hname : ∀ l, (resolvedLevel env l).name = l.name := fun _ => rfl
  have hlevel : ∀ l, (resolvedLevel env l).level = l.level := fun _ => rfl
  rw [checkLogLevel_ret, hdn, hin, hwn, hen]
  by_cases h0 : env "G_LOG_LEVEL" = ""
  · rw [if_pos h0, hdn, hdl, h0]
    decide
  by_cases h1 : "DEBUG" = env "G_LOG_LEVEL"
  · rw [if_neg h0, if_pos h1, hname, hlevel, hdn, hdl, ← h1]
    decide
  by_cases h2 : "INFO" = env "G_LOG_LEVEL"
  · rw [if_neg h0, if_neg h1, if_pos h2, hname, hlevel, hin, hil, ← h2]
    decide
  by_cases h3 : "WARN" = env "G_LOG_LEVEL"
  · rw [if_neg h0, if_neg h1, if_neg h2, if_pos h3, hname, hlevel, hwn, hwl, ← h3]
    decide
  by_cases h4 : "ERROR" = env "G_LOG_LEVEL"
  · rw [if_neg h0, if_neg h1, if_neg h2, if_neg h3, if_pos h4, hname, hlevel, hen, hel, ← h4]
    decide
  · rw [if_neg h0, if_neg h1, if_neg h2, if_neg h3, if_neg h4, hname, hlevel, hdn, hdl]
    have e2 : env "G_LOG_LEVEL" ≠ "INFO" := fun e => h2 e.symm
    have e3 : env "G_LOG_LEVEL" ≠ "WARN" := fun e => h3 e.symm
    have e4 : env "G_LOG_LEVEL" ≠ "ERROR" := fun e => h4 e.symm
    have e1 : env "G_LOG_LEVEL" ≠ "DEBUG" := fun e => h1 e.symm
    simp [e1, e2, e3, e4]

/-- C3, at concrete inputs: from the declared variables, `G_LOG_LEVEL=WARN` gives
(WARN, 3), and `TEST`, `info`, `Debug`, the empty string and an unset variable
all give (DEBUG, 1). -/
theorem checkLogLevel_returns_named_level_witness :
    declared.Canonical ∧
    (((checkLogLevel (envOf [("G_LOG_LEVEL", "WARN")]) declared).ret.name = "WARN" ∧
        (checkLogLevel (envOf [("G_LOG_LEVEL", "WARN")]) declared).ret.level = 3)
      ↔ envOf [("G_LOG_LEVEL", "WARN")] "G_LOG_LEVEL" = "WARN") ∧
    (∀ value ∈ ["TEST", "info", "Debug", ""],
      (checkLogLevel (envOf [("G_LOG_LEVEL", value)]) declared).ret.name = "DEBUG" ∧
      (checkLogLevel (envOf [("G_LOG_LEVEL", value)]) declared).ret.level = 1) ∧
    (checkLogLevel (envOf []) declared).ret.name = "DEBUG" ∧
    (checkLogLevel (envOf []) declared).ret.level = 1 :=
  ⟨declared_canonical,
    (checkLogLevel_returns_named_level (envOf [("G_LOG_LEVEL", "WARN")]) declared
      declared_canonical).2.1,
    by decide, by decide, by decide⟩

/-! ## Format flags -/

/-- C4: for every level argument and environment, `formatter` returns the sum, over
the pieces of the variable it reads (`G_LOG_FORMAT_<level>`, or `G_LOG_FORMAT` for
an empty level argument) split on the bar, of the value of each piece, where the
eight flag names have the values 1, 2, 4, 8, 16, 32, 64 and 3 and every other
string has value 0; an empty or unset variable gives 0. All eight names give 130,
the upper-case spelling of seven of them gives 32 (only `LUTC` matches), and
`shortfile|stdFlags` gives 0. -/
theorem formatter_eq_sum_of_token_values :
    (∀ (env : Env) (level : String),
      formatter env level = ((split (env (formatKey level))).map tokenValue).sum) ∧
    (∀ level : String, formatKey level =
      if level = "" then "G_LOG_FORMAT" else "G_LOG_FORMAT_" ++ level) ∧
    (tokenValue "Ldate" = 1 ∧ tokenValue "Ltime" = 2 ∧ tokenValue "Lmicroseconds" = 4 ∧
      tokenValue "Llongfile" = 8 ∧ tokenValue "Lshortfile" = 16 ∧ tokenValue "LUTC" = 32 ∧
      tokenValue "Lmsgprefix" = 64 ∧ tokenValue "LstdFlags" = 3) ∧
    (∀ piece : String, piece ∉ recognizedTokens → tokenValue piece = 0) ∧
    (tokenValue "ldate" = 0 ∧ tokenValue "LDATE" = 0) ∧
    (∀ (env : Env) (level : String), env (formatKey level) = "" → formatter env level = 0) ∧
    formatter (envOf [("G_LOG_FORMAT_DEBUG",
      "Ldate|Ltime|Lmicroseconds|Llongfile|Lshortfile|LUTC|Lmsgprefix|LstdFlags")]) "DEBUG" = 130 ∧
    formatter (envOf [("G_LOG_FORMAT_WARN",
      "LDATE|LTIME|LMICROSECONDS|LLONGFILE|LUTC|LMSGPREFIX|LSTDFLAGS")]) "WARN" = 32 ∧
    formatter (envOf [("G_LOG_FORMAT_ERROR", "shortfile|stdFlags")]) "ERROR" = 0 ∧
    formatter (envOf [("G_LOG_FORMAT", "Lshortfile|LstdFlags")]) "" = 19 := by
  refine ⟨fun env level => formatter_eq_formatSum env level, fun _ => rfl, by decide, ?_,
    by decide, ?_, by decide, by decide, by decide, by decide⟩
  · intro piece hpiece
    by_contra hne
    exact hpiece ((tokenValue_pos_iff piece).mp (Nat.pos_of_ne_zero hne))
  · intro env level hempty
    rw [formatter_eq_formatSum, hempty, formatSum_empty]

/-- C5 (as stated, refuted): `Ldate` already occurs in the value `Ldate`, and
appending a further `Ldate` changes the result of `formatter` from 1 to 2. -/
theorem duplicate_token_changes_formatter :
    "Ldate" ∈ recognizedTokens ∧ "Ldate" ∈ split "Ldate" ∧
    formatter (setenv (envOf []) "G_LOG_FORMAT_DEBUG" ("Ldate" ++ "|" ++ "Ldate")) "DEBUG" = 2 ∧
    formatter (setenv (envOf []) "G_LOG_FORMAT_DEBUG" "Ldate") "DEBUG" = 1 ∧
    formatter (setenv (envOf []) "G_LOG_FORMAT_DEBUG" ("Ldate" ++ "|" ++ "Ldate")) "DEBUG"
      ≠ formatter (setenv (envOf []) "G_LOG_FORMAT_DEBUG" "Ldate") "DEBUG" := by
  decide

/-- C5 (amended): every occurrence of a recognized token counts. For every
environment, level argument and format value, appending a bar and a recognized
token to the value of the variable `formatter` reads adds that token's value,
which is positive, to the result. -/
theorem formatter_append_recognized_token (env : Env) (level value token : String)
    (htoken : token ∈ recognizedTokens) :
    formatter (setenv env (formatKey level) (value ++ "|" ++ token)) level
      = formatter (setenv env (formatKey level) value) level + tokenValue token ∧
    0 < tokenValue token := by
  refine ⟨?_, (tokenValue_pos_iff token).mpr htoken⟩
  rw [formatter_eq_formatSum, formatter_eq_formatSum]
  simp only [setenv, if_true]
  exact formatSum_append_token value token htoken

/-- C5 (amended), at a concrete input: appending `Ldate` to `Ldate` under
`G_LOG_FORMAT_DEBUG` adds 1. -/
theorem formatter_append_recognized_token_witness :
    "Ldate" ∈ recognizedTokens ∧
    (formatter (setenv (envOf []) (formatKey "DEBUG") ("Ldate" ++ "|" ++ "Ldate")) "DEBUG"
      = formatter (setenv (envOf []) (formatKey "DEBUG") "Ldate") "DEBUG" + tokenValue "Ldate" ∧
    0 < tokenValue "Ldate") :=
  ⟨by decide, formatter_append_recognized_token (envOf []) "DEBUG" "Ldate" "Ldate" (by decide)⟩

/-! ## Rank comparison -/

/-- C6: `a.isLowerOrEqualThan(b)` is true exactly when `a.level <= b.level`; it
depends on the two `level` fields only. On the declared levels, DEBUG against
DEBUG, INFO, WARN and ERROR is true and ERROR against DEBUG is false. -/
theorem isLowerOrEqualThan_iff_level_le :
    (∀ a b : LogLevel, a.isLowerOrEqualThan b = true ↔ a.level ≤ b.level) ∧
    (∀ (n₁ n₂ p₁ p₂ : String) (f₁ f₂ la lb : Nat),
      LogLevel.isLowerOrEqualThan ⟨n₁, la, p₁, f₁⟩ ⟨n₂, lb, p₂, f₂⟩ = decide (la ≤ lb)) ∧
    declared.logLevelDebug.isLowerOrEqualThan declared.logLevelDebug = true ∧
    declared.logLevelDebug.isLowerOrEqualThan declared.logLevelInfo = true ∧
    declared.logLevelDebug.isLowerOrEqualThan declared.logLevelWarn = true ∧
    declared.logLevelDebug.isLowerOrEqualThan declared.logLevelError = true ∧
    declared.logLevelError.isLowerOrEqualThan declared.logLevelDebug = false := by
  refine ⟨?_, ?_, by decide, by decide, by decide, by decide, by decide⟩
  · intro a b
    simp only [LogLevel.isLowerOrEqualThan, decide_eq_true_eq]
  · intros
    rfl

/-! ## Prefixes -/

/-- C9: for a non-empty level name, `loadPrefix` returns the value of
`G_LOG_PREFIX_<level>` when that is non-empty and the value of `G_LOG_PREFIX`
otherwise, which is empty when that variable is unset; for the empty level name
it returns the value of `G_LOG_PREFIX`. -/
theorem loadPrefix_level_then_global (env : Env) (level : String) :
    (level ≠ "" → env ("G_LOG_PREFIX_" ++ level) ≠ "" →
      loadPrefix env level = env ("G_LOG_PREFIX_" ++ level)) ∧
    (level ≠ "" → env ("G_LOG_PREFIX_" ++ level) = "" →
      loadPrefix env level = env "G_LOG_PREFIX") ∧
    (level ≠ "" → env ("G_LOG_PREFIX_" ++ level) = "" → env "G_LOG_PREFIX" = "" →
      loadPrefix env level = "") ∧
    loadPrefix env "" = env "G_LOG_PREFIX" ∧
    loadPrefix env level =
      (if level = "" then env "G_LOG_PREFIX"
       else if env ("G_LOG_PREFIX_" ++ level) = "" then env "G_LOG_PREFIX"
       else env ("G_LOG_PREFIX_" ++ level)) := by
  have hform : loadPrefix env level =
      (if level = "" then env "G_LOG_PREFIX"
       else if env ("G_LOG_PREFIX_" ++ level) = "" then env "G_LOG_PREFIX"
       else env ("G_LOG_PREFIX_" ++ level)) := by
    unfold loadPrefix
    simp only [length_pos_iff_ne_empty, prefix_key_append]
    by_cases h : level = ""
    · rw [if_neg (not_not.mpr h), if_pos h]
    · rw [if_pos h, if_neg h]
      by_cases h2 : env ("G_LOG_PREFIX_" ++ level) = ""
      · rw [if_neg (not_not.mpr h2), if_pos h2]
      · rw [if_pos h2, if_neg h2]
  refine ⟨?_, ?_, ?_, ?_, hform⟩
  · intro h h2
    rw [hform, if_neg h, if_neg h2]
  · intro h h2
    rw [hform, if_neg h, if_pos h2]
  · intro h h2 h3
    rw [hform, if_neg h, if_pos h2, h3]
  · rfl

/-! ## Per-level format flags after resolution -/

theorem not_hasRecognized_empty : ¬ HasRecognized "" := by
  rw [← formatSum_pos_iff, formatSum_empty]
  decide

theorem resolvedLevel_formatterFlag (env : Env) (l : LogLevel) (name : String)
    (hname : l.name = name) (hne : name ≠ "") :
    (HasRecognized (env ("G_LOG_FORMAT_" ++ name)) →
      (resolvedLevel env l).formatterFlag = formatter env name ∧
      formatter env name = formatSum (env ("G_LOG_FORMAT_" ++ name))) ∧
    (¬ HasRecognized (env ("G_LOG_FORMAT_" ++ name)) →
      (resolvedLevel env l).formatterFlag = l.formatterFlag) := by
  have hkey : formatKey name = "G_LOG_FORMAT_" ++ name := by
    unfold formatKey
    rw [if_neg hne]
  have hsum : formatter env name = formatSum (env ("G_LOG_FORMAT_" ++ name)) := by
    rw [formatter_eq_formatSum, hkey]
  have hflag : (resolvedLevel env l).formatterFlag =
      if formatter env name > 0 then formatter env name else l.formatterFlag := by
    rw [← hname]
    rfl
  constructor
  · intro hrec
    have hpos : formatter env name > 0 := by
      rw [hsum]
      exact (formatSum_pos_iff _).mpr hrec
    exact ⟨by rw [hflag, if_pos hpos], hsum⟩
  · intro hrec
    have hpos : ¬ formatter env name > 0 := by
      rw [hsum]
      exact fun h => hrec ((formatSum_pos_iff _).mp h)
    rw [hflag, if_neg hpos]

/-- C7 (as stated, refuted): with `G_LOG_LEVEL=DEBUG`, `G_LOG_FORMAT=Ldate` and
`G_LOG_FORMAT_DEBUG` unset, `G_LOG_FORMAT` has a recognized token and its sum is 1,
yet after resolution from the declared variables the flags of DEBUG are the
declared 19, not 1; `formatter` reads `G_LOG_FORMAT` only for an empty level
argument. -/
theorem global_format_not_used_as_fallback :
    envOf [("G_LOG_LEVEL", "DEBUG"), ("G_LOG_FORMAT", "Ldate")] "G_LOG_FORMAT_DEBUG" = "" ∧
    HasRecognized (envOf [("G_LOG_LEVEL", "DEBUG"), ("G_LOG_FORMAT", "Ldate")] "G_LOG_FORMAT") ∧
    formatSum (envOf [("G_LOG_LEVEL", "DEBUG"), ("G_LOG_FORMAT", "Ldate")] "G_LOG_FORMAT") = 1 ∧
    (checkLogLevel (envOf [("G_LOG_LEVEL", "DEBUG"), ("G_LOG_FORMAT", "Ldate")])
      declared).state.logLevelDebug.formatterFlag = 19 ∧
    (checkLogLevel (envOf [("G_LOG_LEVEL", "DEBUG"), ("G_LOG_FORMAT", "Ldate")])
      declared).state.logLevelDebug.formatterFlag
      ≠ formatSum (envOf [("G_LOG_LEVEL", "DEBUG"), ("G_LOG_FORMAT", "Ldate")] "G_LOG_FORMAT") ∧
    (checkLogLevel (envOf [("G_LOG_LEVEL", "DEBUG"), ("G_LOG_FORMAT", "Ldate")])
      declared).ret.formatterFlag = 19 ∧
    formatter (envOf [("G_LOG_LEVEL", "DEBUG"), ("G_LOG_FORMAT", "Ldate")]) "DEBUG" = 0 ∧
    formatter (envOf [("G_LOG_LEVEL", "DEBUG"), ("G_LOG_FORMAT", "Ldate")]) "" = 1 :=
  ⟨by decide, ⟨"Ldate", by decide, by decide⟩, by decide, by decide, by decide, by decide,
    by decide, by decide⟩

/-- C8: when `G_LOG_LEVEL` is non-empty and the levels keep their declared names
and ranks, then for each of DEBUG, INFO, WARN, ERROR: if some piece of
`G_LOG_FORMAT_<L>` is a recognized token, the level's flags after `checkLogLevel`
are `formatter(L)`, the sum of the values of the pieces, whatever they were
before; if no piece is recognized, in particular if the variable is unset or
empty, the flags are what they were before the call. -/
theorem per_level_format_replaces_or_keeps (env : Env) (s : State) (hs : s.Canonical)
    (hlevel : env "G_LOG_LEVEL" ≠ "") :
    ∀ p ∈ levelVars,
      (HasRecognized (env ("G_LOG_FORMAT_" ++ p.1)) →
        (p.2 (checkLogLevel env s).state).formatterFlag = formatter env p.1 ∧
        formatter env p.1 = formatSum (env ("G_LOG_FORMAT_" ++ p.1))) ∧
      (¬ HasRecognized (env ("G_LOG_FORMAT_" ++ p.1)) →
        (p.2 (checkLogLevel env s).state).formatterFlag = (p.2 s).formatterFlag) ∧
      (env ("G_LOG_FORMAT_" ++ p.1) = "" →
        (p.2 (checkLogLevel env s).state).formatterFlag = (p.2 s).formatterFlag) := by
  obtain ⟨⟨hdn, -⟩, ⟨hin, -⟩, ⟨hwn, -⟩, ⟨hen, -⟩⟩ := hs
  have hstate := checkLogLevel_state env s
  rw [if_neg hlevel] at hstate
  have key : ∀ (name : String) (get : State → LogLevel), (get s).name = name → name ≠ "" →
      get (checkLogLevel env s).state = resolvedLevel env (get s) →
      (HasRecognized (env ("G_LOG_FORMAT_" ++ name)) →
        (get (checkLogLevel env s).state).formatterFlag = formatter env name ∧
        formatter env name = formatSum (env ("G_LOG_FORMAT_" ++ name))) ∧
      (¬ HasRecognized (env ("G_LOG_FORMAT_" ++ name)) →
        (get (checkLogLevel env s).state).formatterFlag = (get s).formatterFlag) ∧
      (env ("G_LOG_FORMAT_" ++ name) = "" →
        (get (checkLogLevel env s).state).formatterFlag = (get s).formatterFlag) := by
    intro name get hname hne hget
    have h := resolvedLevel_formatterFlag env (get s) name hname hne
    rw [hget]
    refine ⟨h.1, h.2, fun hempty => h.2 ?_⟩
    rw [hempty]
    exact not_hasRecognized_empty
  intro p hp
  simp only [levelVars, List.mem_cons, List.mem_singleton, List.not_mem_nil, or_false] at hp
  rcases hp with rfl | rfl | rfl | rfl
  · exact key "DEBUG" State.logLevelDebug hdn (by decide) (by rw [hstate])
  · exact key "INFO" State.logLevelInfo hin (by decide) (by rw [hstate])
  · exact key "WARN" State.logLevelWarn hwn (by decide) (by rw [hstate])
  · exact key "ERROR" State.logLevelError hen (by decide) (by rw [hstate])

/-- C8, at a concrete input: from the declared variables with `G_LOG_LEVEL=ERROR`,
`G_LOG_FORMAT_ERROR=Lshortfile|LstdFlags` and `G_LOG_FORMAT_WARN=shortfile`, the
flags of ERROR become 19 and the flags of WARN stay 19, those of ERROR having
been 11. -/
theorem per_level_format_replaces_or_keeps_witness :
    declared.Canonical ∧
    envOf [("G_LOG_LEVEL", "ERROR"), ("G_LOG_FORMAT_ERROR", "Lshortfile|LstdFlags"),
      ("G_LOG_FORMAT_WARN", "shortfile")] "G_LOG_LEVEL" ≠ "" ∧
    ((HasRecognized (envOf [("G_LOG_LEVEL", "ERROR"),
          ("G_LOG_FORMAT_ERROR", "Lshortfile|LstdFlags"),
          ("G_LOG_FORMAT_WARN", "shortfile")] ("G_LOG_FORMAT_" ++ "ERROR")) →
        ((checkLogLevel (envOf [("G_LOG_LEVEL", "ERROR"),
          ("G_LOG_FORMAT_ERROR", "Lshortfile|LstdFlags"),
          ("G_LOG_FORMAT_WARN", "shortfile")]) declared).state.logLevelError).formatterFlag
          = formatter (envOf [("G_LOG_LEVEL", "ERROR"),
              ("G_LOG_FORMAT_ERROR", "Lshortfile|LstdFlags"),
              ("G_LOG_FORMAT_WARN", "shortfile")]) "ERROR")) ∧
    (checkLogLevel (envOf [("G_LOG_LEVEL", "ERROR"),
      ("G_LOG_FORMAT_ERROR", "Lshortfile|LstdFlags"),
      ("G_LOG_FORMAT_WARN", "shortfile")]) declared).state.logLevelError.formatterFlag = 19 ∧
    declared.logLevelError.formatterFlag = 11 ∧
    (checkLogLevel (envOf [("G_LOG_LEVEL", "ERROR"),
      ("G_LOG_FORMAT_ERROR", "Lshortfile|LstdFlags"),
      ("G_LOG_FORMAT_WARN", "shortfile")]) declared).state.logLevelWarn.formatterFlag = 19 :=
  ⟨declared_canonical, by decide,
    fun h => ((per_level_format_replaces_or_keeps _ declared declared_canonical (by decide)
      ("ERROR", State.logLevelError) (by simp [levelVars])).1 h).1,
    by decide, by decide, by decide⟩

/-! ## Prefixes after resolution -/

/-- C10 (the code at the failing input): with `G_LOG_LEVEL` unset and
`G_LOG_PREFIX=app`, `checkLogLevel` returns before any prefix is loaded, so from
the declared variables the stored prefixes of all four levels stay empty although
`loadPrefix` gives `app` for each; with the unrecognized `G_LOG_LEVEL=TEST`, which
also resolves to DEBUG, the four prefixes are stored. -/
theorem prefixes_not_stored_when_level_empty :
    envOf [("G_LOG_PREFIX", "app")] "G_LOG_LEVEL" = "" ∧
    (∀ p ∈ levelVars,
      (p.2 (checkLogLevel (envOf [("G_LOG_PREFIX", "app")]) declared).state).prefix_ = "" ∧
      loadPrefix (envOf [("G_LOG_PREFIX", "app")]) p.1 = "app") ∧
    (checkLogLevel (envOf [("G_LOG_PREFIX", "app")]) declared).ret.prefix_ = "" ∧
    (checkLogLevel (envOf [("G_LOG_PREFIX", "app")]) declared).state = declared ∧
    (∀ p ∈ levelVars,
      (p.2 (checkLogLevel (envOf [("G_LOG_LEVEL", "TEST"), ("G_LOG_PREFIX", "app")])
        declared).state).prefix_ = "app") ∧
    (checkLogLevel (envOf [("G_LOG_LEVEL", "TEST"), ("G_LOG_PREFIX", "app")])
      declared).ret.name = "DEBUG" := by
  decide

/-! ## Shared lemmas for the remaining properties -/

theorem text_contains_message (e : Emission) (sprintf : String → List String → String)
    (header : String) :
    (sprintf e.format e.args).data <:+: (e.text sprintf header).data := by
  unfold Emission.text
  split_ifs
  · exact ⟨header.data, [], by simp⟩
  · exact ⟨header.data, "\n".data, by simp⟩

theorem checkLogLevel_ret_nameRank (env : Env) (s : State) (hs : s.Canonical) :
    (checkLogLevel env s).ret.nameRank =
      if env "G_LOG_LEVEL" = "INFO" then ("INFO", 2)
      else if env "G_LOG_LEVEL" = "WARN" then ("WARN", 3)
      else if env "G_LOG_LEVEL" = "ERROR" then ("ERROR", 4)
      else ("DEBUG", 1) := by
  obtain ⟨⟨hdn, hdl⟩, ⟨hin, hil⟩, ⟨hwn, hwl⟩, ⟨hen, hel⟩⟩ := hs
  have hnr : ∀ l, (resolvedLevel env l).nameRank = l.nameRank := fun _ => rfl
  have hd : s.logLevelDebug.nameRank = ("DEBUG", 1) := by
    unfold LogLevel.nameRank
    rw [hdn, hdl]
  have hi : s.logLevelInfo.nameRank = ("INFO", 2) := by
    unfold LogLevel.nameRank
    rw [hin, hil]
  have hw : s.logLevelWarn.nameRank = ("WARN", 3) := by
    unfold LogLevel.nameRank
    rw [hwn, hwl]
  have he : s.logLevelError.nameRank = ("ERROR", 4) := by
    unfold LogLevel.nameRank
    rw [hen, hel]
  rw [checkLogLevel_ret, hdn, hin, hwn, hen]
  by_cases h0 : env "G_LOG_LEVEL" = ""
  · rw [if_pos h0, hd, h0]
    decide
  by_cases h1 : "DEBUG" = env "G_LOG_LEVEL"
  · rw [if_neg h0, if_pos h1, hnr, hd, ← h1]
    decide
  by_cases h2 : "INFO" = env "G_LOG_LEVEL"
  · rw [if_neg h0, if_neg h1, if_pos h2, hnr, hi, ← h2]
    decide
  by_cases h3 : "WARN" = env "G_LOG_LEVEL"
  · rw [if_neg h0, if_neg h1, if_neg h2, if_pos h3, hnr, hw, ← h3]
    decide
  by_cases h4 : "ERROR" = env "G_LOG_LEVEL"
  · rw [if_neg h0, if_neg h1, if_neg h2, if_neg h3, if_pos h4, hnr, he, ← h4]
    decide
  · rw [if_neg h0, if_neg h1, if_neg h2, if_neg h3, if_neg h4, hnr, hd,
      if_neg (fun e => h2 e.symm), if_neg (fun e => h3 e.symm), if_neg (fun e => h4 e.symm)]

theorem checkLogLevel_ret_nameRank_mem (env : Env) (s : State) (hs : s.Canonical) :
    (checkLogLevel env s).ret.nameRank ∈ [("DEBUG", 1), ("INFO", 2), ("WARN", 3), ("ERROR", 4)] := by
  rw [checkLogLevel_ret_nameRank env s hs]
  split_ifs <;> decide

/-! ## The line prefix -/

/-- C11: `getPrefix` returns `name ++ ": " ++ prefix ++ " "` when the custom prefix
is non-empty and exactly `name ++ ": "` when it is empty; in both cases the result
starts with `name ++ ": "` and its last character is a space. -/
theorem getPrefix_shape (l : LogLevel) :
    (l.prefix_ ≠ "" → l.getPrefix = l.name ++ ": " ++ l.prefix_ ++ " ") ∧
    (l.prefix_ = "" → l.getPrefix = l.name ++ ": ") ∧
    (l.name ++ ": ").data <+: l.getPrefix.data ∧
    l.getPrefix.data.getLast? = some ' ' := by
  have hpos : l.prefix_ ≠ "" → l.getPrefix = l.name ++ ": " ++ l.prefix_ ++ " " := by
    intro h
    unfold LogLevel.getPrefix
    rw [if_pos ((length_pos_iff_ne_empty _).mpr h)]
  have hzero : l.prefix_ = "" → l.getPrefix = l.name ++ ": " := by
    intro h
    unfold LogLevel.getPrefix
    rw [if_neg (fun hp => (length_pos_iff_ne_empty _).mp hp h)]
  have hcolon : ": ".data = [':', ' '] := rfl
  have hspace : " ".data = [' '] := rfl
  refine ⟨hpos, hzero, ?_, ?_⟩
  · by_cases h : l.prefix_ = ""
    · rw [hzero h]
    · rw [hpos h]
      simp only [String.data_append, List.append_assoc]
      exact ⟨l.prefix_.data ++ " ".data, by simp⟩
  · have hlast : ∀ xs : List Char, (xs ++ [' ']).getLast? = some ' ' := by
      intro xs
      simp
    by_cases h : l.prefix_ = ""
    · rw [hzero h]
      have hdata : (l.name ++ ": ").data = (l.name.data ++ [':']) ++ [' '] := by
        simp [String.data_append, hcolon]
      rw [hdata]
      exact hlast _
    · rw [hpos h]
      have hdata : (l.name ++ ": " ++ l.prefix_ ++ " ").data
          = (l.name.data ++ ": ".data ++ l.prefix_.data) ++ [' '] := by
        simp [String.data_append, hspace]
      rw [hdata]
      exact hlast _

/-! ## The internal startup line -/

/-- C12 (as stated, refuted): with `G_LOG_LEVEL=TEST` the level returned is DEBUG
but the startup line reports `TEST`; with `G_LOG_LEVEL` unset it reports the empty
string. -/
theorem startup_line_not_resolved_name :
    (checkLogLevel (envOf [("G_LOG_LEVEL", "TEST")]) declared).ret.name = "DEBUG" ∧
    (checkLogLevel (envOf [("G_LOG_LEVEL", "TEST")]) declared).out
      = [⟨Stream.stdout, "", LstdFlags, "Log Level: %v", ["TEST"]⟩] ∧
    (checkLogLevel (envOf [("G_LOG_LEVEL", "TEST")]) declared).out
      ≠ [⟨Stream.stdout, "", LstdFlags, "Log Level: %v",
          [(checkLogLevel (envOf [("G_LOG_LEVEL", "TEST")]) declared).ret.name]⟩] ∧
    (checkLogLevel (envOf []) declared).ret.name = "DEBUG" ∧
    (checkLogLevel (envOf []) declared).out
      = [⟨Stream.stdout, "", LstdFlags, "Log Level: %v", [""]⟩] := by
  decide

/-- C12 (amended): `checkLogLevel` writes exactly one internal line, to standard
output with flags `LstdFlags` and no prefix, rendered from `Log Level: %v` and the
value of `G_LOG_LEVEL` as read; that value is the name of the level returned
exactly when it is one of DEBUG, INFO, WARN, ERROR. -/
theorem startup_line_reports_variable (env : Env) (s : State) (hs : s.Canonical) :
    (checkLogLevel env s).out
      = [⟨Stream.stdout, "", LstdFlags, "Log Level: %v", [env "G_LOG_LEVEL"]⟩] ∧
    (env "G_LOG_LEVEL" = (checkLogLevel env s).ret.name
      ↔ env "G_LOG_LEVEL" ∈ ["DEBUG", "INFO", "WARN", "ERROR"]) := by
  constructor
  · rw [checkLogLevel_eq]
    split_ifs <;> rfl
  · have hname : (checkLogLevel env s).ret.name = (checkLogLevel env s).ret.nameRank.1 := rfl
    rw [hname, checkLogLevel_ret_nameRank env s hs]
    by_cases h2 : env "G_LOG_LEVEL" = "INFO"
    · rw [if_pos h2, h2]
      decide
    by_cases h3 : env "G_LOG_LEVEL" = "WARN"
    · rw [if_neg h2, if_pos h3, h3]
      decide
    by_cases h4 : env "G_LOG_LEVEL" = "ERROR"
    · rw [if_neg h2, if_neg h3, if_pos h4, h4]
      decide
    · rw [if_neg h2, if_neg h3, if_neg h4]
      simp [h2, h3, h4]

/-- C12 (amended), at a concrete input: from the declared variables with
`G_LOG_LEVEL=WARN` the line reports `WARN`, the name of the level returned. -/
theorem startup_line_reports_variable_witness :
    declared.Canonical ∧
    (checkLogLevel (envOf [("G_LOG_LEVEL", "WARN")]) declared).out
      = [⟨Stream.stdout, "", LstdFlags, "Log Level: %v",
          [envOf [("G_LOG_LEVEL", "WARN")] "G_LOG_LEVEL"]⟩] ∧
    (checkLogLevel (envOf [("G_LOG_LEVEL", "WARN")]) declared).ret.name = "WARN" :=
  ⟨declared_canonical,
    (startup_line_reports_variable (envOf [("G_LOG_LEVEL", "WARN")]) declared
      declared_canonical).1,
    by decide⟩

/-! ## Reachable states -/

theorem checkLogLevel_state_logLevel (env : Env) (s : State) :
    (checkLogLevel env s).state.logLevel = s.logLevel := by
  rw [checkLogLevel_state]
  split_ifs <;> rfl

theorem checkLogLevel_state_nameRank (env : Env) (s : State) :
    ∀ p ∈ levelVars, (p.2 (checkLogLevel env s).state).nameRank = (p.2 s).nameRank := by
  intro p hp
  rw [checkLogLevel_state]
  simp only [levelVars, List.mem_cons, List.mem_singleton, List.not_mem_nil, or_false] at hp
  rcases hp with rfl | rfl | rfl | rfl <;> split_ifs <;> rfl

theorem apply_invariant (c : Call) (s : State) (hs : s.Canonical)
    (ht : s.logLevel.nameRank ∈ [("DEBUG", 1), ("INFO", 2), ("WARN", 3), ("ERROR", 4)]) :
    (c.apply s).Canonical ∧
    (c.apply s).logLevel.nameRank ∈ [("DEBUG", 1), ("INFO", 2), ("WARN", 3), ("ERROR", 4)] := by
  cases c with
  | UpdateLogLevel env =>
    exact ⟨canonical_UpdateLogLevel env s hs, checkLogLevel_ret_nameRank_mem env s hs⟩
  | checkLogLevel env =>
    refine ⟨canonical_checkLogLevel env s hs, ?_⟩
    show (checkLogLevel env s).state.logLevel.nameRank ∈ _
    rw [checkLogLevel_state_logLevel]
    exact ht

theorem run_invariant (calls : List Call) (s : State) (hs : s.Canonical)
    (ht : s.logLevel.nameRank ∈ [("DEBUG", 1), ("INFO", 2), ("WARN", 3), ("ERROR", 4)]) :
    (run s calls).Canonical ∧
    (run s calls).logLevel.nameRank ∈ [("DEBUG", 1), ("INFO", 2), ("WARN", 3), ("ERROR", 4)] := by
  induction calls generalizing s with
  | nil => exact ⟨hs, ht⟩
  | cons c rest ih =>
    have h := apply_invariant c s hs ht
    exact ih (c.apply s) h.1 h.2

theorem initial_invariant (env : Env) :
    (initial env).Canonical ∧
    (initial env).logLevel.nameRank ∈ [("DEBUG", 1), ("INFO", 2), ("WARN", 3), ("ERROR", 4)] :=
  ⟨canonical_UpdateLogLevel env declared declared_canonical,
    checkLogLevel_ret_nameRank_mem env declared declared_canonical⟩

/-- C13: after package initialisation under any environment and any finite
sequence of `UpdateLogLevel` and `checkLogLevel` calls under any environments,
the four level variables have names and ranks (DEBUG, 1), (INFO, 2), (WARN, 3),
(ERROR, 4) and `logLevel` has the name and rank of one of them; one call leaves
the name and rank of each level variable as they were. -/
theorem ranks_fixed_on_reachable_states (env₀ : Env) (calls : List Call) :
    ((run (initial env₀) calls).logLevelDebug.nameRank = ("DEBUG", 1) ∧
      (run (initial env₀) calls).logLevelInfo.nameRank = ("INFO", 2) ∧
      (run (initial env₀) calls).logLevelWarn.nameRank = ("WARN", 3) ∧
      (run (initial env₀) calls).logLevelError.nameRank = ("ERROR", 4)) ∧
    (run (initial env₀) calls).logLevel.nameRank
      ∈ [("DEBUG", 1), ("INFO", 2), ("WARN", 3), ("ERROR", 4)] ∧
    (∀ (c : Call) (s : State), ∀ p ∈ levelVars, (p.2 (c.apply s)).nameRank = (p.2 s).nameRank) := by
  have h := run_invariant calls (initial env₀) (initial_invariant env₀).1 (initial_invariant env₀).2
  obtain ⟨⟨⟨hdn, hdl⟩, ⟨hin, hil⟩, ⟨hwn, hwl⟩, ⟨hen, hel⟩⟩, ht⟩ := h
  refine ⟨⟨?_, ?_, ?_, ?_⟩, ht, ?_⟩
  · unfold LogLevel.nameRank
    rw [hdn, hdl]
  · unfold LogLevel.nameRank
    rw [hin, hil]
  · unfold LogLevel.nameRank
    rw [hwn, hwl]
  · unfold LogLevel.nameRank
    rw [hen, hel]
  · intro c s p hp
    cases c with
    | UpdateLogLevel env =>
      have h := checkLogLevel_state_nameRank env s p hp
      simp only [levelVars, List.mem_cons, List.mem_singleton, List.not_mem_nil, or_false] at hp
      rcases hp with rfl | rfl | rfl | rfl <;> exact h
    | checkLogLevel env => exact checkLogLevel_state_nameRank env s p hp

/-! ## The fatal path -/

/-- C14: for every state, hence every threshold, and every format and operands,
`Fatal` writes exactly one line, to standard error, with `getPrefix` and
`formatterFlag` of the ERROR level, whose text contains the rendered message, and
exits with status 1; replacing the threshold changes nothing. -/
theorem fatal_always_writes_and_exits (s : State) (format : String) (v : List String) :
    (Fatal s format v).out
      = [⟨Stream.stderr, s.logLevelError.getPrefix, s.logLevelError.formatterFlag, format, v⟩] ∧
    (Fatal s format v).exitStatus = 1 ∧
    (∀ threshold : LogLevel, Fatal { s with logLevel := threshold } format v = Fatal s format v) ∧
    (∀ e ∈ (Fatal s format v).out,
      ∀ (sprintf : String → List String → String) (header : String),
        (sprintf format v).data <:+: (e.text sprintf header).data) ∧
    (Fatal (UpdateLogLevel (envOf [("G_LOG_LEVEL", "ERROR")]) declared) "x" []).out
      = [⟨Stream.stderr, "ERROR: ", 11, "x", []⟩] ∧
    (Fatal (UpdateLogLevel (envOf [("G_LOG_LEVEL", "DEBUG")]) declared) "x" []).out
      = [⟨Stream.stderr, "ERROR: ", 11, "x", []⟩] := by
  refine ⟨rfl, rfl, fun _ => rfl, ?_, by decide, by decide⟩
  intro e he sprintf header
  simp only [Fatal, List.mem_singleton] at he
  subst he
  exact text_contains_message
    ⟨Stream.stderr, s.logLevelError.getPrefix, s.logLevelError.formatterFlag, format, v⟩
    sprintf header

/-! ## Gating after a resolution -/

theorem debug_emits_iff (s : State) (format : String) (v : List String) :
    Debug s format v ≠ [] ↔ s.logLevel.level ≤ s.logLevelDebug.level := by
  simp only [Debug, gate_nonempty_iff, LogLevel.isLowerOrEqualThan, decide_eq_true_eq]

theorem info_emits_iff (s : State) (format : String) (v : List String) :
    Info s format v ≠ [] ↔ s.logLevel.level ≤ s.logLevelInfo.level := by
  simp only [Info, gate_nonempty_iff, LogLevel.isLowerOrEqualThan, decide_eq_true_eq]

theorem warn_emits_iff (s : State) (format : String) (v : List String) :
    Warn s format v ≠ [] ↔ s.logLevel.level ≤ s.logLevelWarn.level := by
  simp only [Warn, gate_nonempty_iff, LogLevel.isLowerOrEqualThan, decide_eq_true_eq]

theorem error_emits_iff (s : State) (format : String) (v : List String) :
    Error s format v ≠ [] ↔ s.logLevel.level ≤ s.logLevelError.level := by
  simp only [Error, gate_nonempty_iff, LogLevel.isLowerOrEqualThan, decide_eq_true_eq]

theorem update_threshold_level_le_four (env : Env) (s : State) (hs : s.Canonical) :
    (UpdateLogLevel env s).logLevel.level ≤ 4 := by
  have h := checkLogLevel_ret_nameRank env s hs
  have hl : (UpdateLogLevel env s).logLevel.level = (checkLogLevel env s).ret.nameRank.2 := rfl
  rw [hl, h]
  split_ifs <;> decide

theorem update_threshold_nameRank (env₁ env₂ : Env) (s₁ s₂ : State) (h₁ : s₁.Canonical)
    (h₂ : s₂.Canonical) (henv : env₁ "G_LOG_LEVEL" = env₂ "G_LOG_LEVEL") :
    (UpdateLogLevel env₁ s₁).logLevel.nameRank = (UpdateLogLevel env₂ s₂).logLevel.nameRank := by
  show (checkLogLevel env₁ s₁).ret.nameRank = (checkLogLevel env₂ s₂).ret.nameRank
  rw [checkLogLevel_ret_nameRank env₁ s₁ h₁, checkLogLevel_ret_nameRank env₂ s₂ h₂, henv]

/-- C15: from any state whose levels keep their declared names and ranks, after
`UpdateLogLevel` under any environment a call `Error(format, args)` writes one
line, to standard error, whose text contains the rendered message, whatever
`G_LOG_LEVEL` is. -/
theorem error_emitted_after_every_update (env : Env) (s : State) (hs : s.Canonical)
    (format : String) (v : List String) :
    ∃ e, Error (UpdateLogLevel env s) format v = [e] ∧
      e.stream = Stream.stderr ∧ e.format = format ∧ e.args = v ∧
      ∀ (sprintf : String → List String → String) (header : String),
        (sprintf format v).data <:+: (e.text sprintf header).data := by
  have hle := update_threshold_level_le_four env s hs
  have herr : (UpdateLogLevel env s).logLevelError.level = 4 :=
    (canonical_UpdateLogLevel env s hs).2.2.2.2
  refine ⟨⟨Stream.stderr, (UpdateLogLevel env s).logLevelError.getPrefix,
    (UpdateLogLevel env s).logLevelError.formatterFlag, format, v⟩, ?_, rfl, rfl, rfl, ?_⟩
  · unfold Error LogLevel.isLowerOrEqualThan
    rw [herr, if_pos (decide_eq_true hle)]
  · intro sprintf header
    exact text_contains_message
      ⟨Stream.stderr, (UpdateLogLevel env s).logLevelError.getPrefix,
        (UpdateLogLevel env s).logLevelError.formatterFlag, format, v⟩ sprintf header

/-- C15, at a concrete input: from the declared variables with `G_LOG_LEVEL` empty,
`Error("Test-2: %v", "ERROR")` writes the line with prefix `ERROR: ` and flags 11
rendered from that format and operand. -/
theorem error_emitted_after_every_update_witness :
    declared.Canonical ∧
    (∃ e, Error (UpdateLogLevel (envOf [("G_LOG_LEVEL", "")]) declared) "Test-2: %v" ["ERROR"]
        = [e] ∧
      e.stream = Stream.stderr ∧ e.format = "Test-2: %v" ∧ e.args = ["ERROR"] ∧
      ∀ (sprintf : String → List String → String) (header : String),
        (sprintf "Test-2: %v" ["ERROR"]).data <:+: (e.text sprintf header).data) ∧
    Error (UpdateLogLevel (envOf [("G_LOG_LEVEL", "")]) declared) "Test-2: %v" ["ERROR"]
      = [⟨Stream.stderr, "ERROR: ", 11, "Test-2: %v", ["ERROR"]⟩] :=
  ⟨declared_canonical,
    error_emitted_after_every_update (envOf [("G_LOG_LEVEL", "")]) declared declared_canonical
      "Test-2: %v" ["ERROR"],
    by decide⟩

/-- C16: after `UpdateLogLevel`, `GetLogLevel` returns the level `checkLogLevel`
computes for that environment and prior state. For two prior states whose levels
keep their declared names and ranks and two environments with the same value of
`G_LOG_LEVEL`, the name and rank of the threshold agree, and so does the decision
of each of Debug, Info, Warn, Error to emit. -/
theorem update_re_resolves_threshold (env₁ env₂ : Env) (s₁ s₂ : State)
    (h₁ : s₁.Canonical) (h₂ : s₂.Canonical)
    (henv : env₁ "G_LOG_LEVEL" = env₂ "G_LOG_LEVEL")
    (format₁ format₂ : String) (v₁ v₂ : List String) :
    GetLogLevel (UpdateLogLevel env₁ s₁) = (checkLogLevel env₁ s₁).ret ∧
    (GetLogLevel (UpdateLogLevel env₁ s₁)).name = (GetLogLevel (UpdateLogLevel env₂ s₂)).name ∧
    (GetLogLevel (UpdateLogLevel env₁ s₁)).level = (GetLogLevel (UpdateLogLevel env₂ s₂)).level ∧
    (Debug (UpdateLogLevel env₁ s₁) format₁ v₁ ≠ []
      ↔ Debug (UpdateLogLevel env₂ s₂) format₂ v₂ ≠ []) ∧
    (Info (UpdateLogLevel env₁ s₁) format₁ v₁ ≠ []
      ↔ Info (UpdateLogLevel env₂ s₂) format₂ v₂ ≠ []) ∧
    (Warn (UpdateLogLevel env₁ s₁) format₁ v₁ ≠ []
      ↔ Warn (UpdateLogLevel env₂ s₂) format₂ v₂ ≠ []) ∧
    (Error (UpdateLogLevel env₁ s₁) format₁ v₁ ≠ []
      ↔ Error (UpdateLogLevel env₂ s₂) format₂ v₂ ≠ []) := by
  have hnr := update_threshold_nameRank env₁ env₂ s₁ s₂ h₁ h₂ henv
  have hname : (UpdateLogLevel env₁ s₁).logLevel.name = (UpdateLogLevel env₂ s₂).logLevel.name :=
    congrArg Prod.fst hnr
  have hlevel : (UpdateLogLevel env₁ s₁).logLevel.level
      = (UpdateLogLevel env₂ s₂).logLevel.level :=
    congrArg Prod.snd hnr
  obtain ⟨⟨-, hd₁⟩, ⟨-, hi₁⟩, ⟨-, hw₁⟩, ⟨-, he₁⟩⟩ := canonical_UpdateLogLevel env₁ s₁ h₁
  obtain ⟨⟨-, hd₂⟩, ⟨-, hi₂⟩, ⟨-, hw₂⟩, ⟨-, he₂⟩⟩ := canonical_UpdateLogLevel env₂ s₂ h₂
  refine ⟨rfl, hname, hlevel, ?_, ?_, ?_, ?_⟩
  · rw [debug_emits_iff, debug_emits_iff, hlevel, hd₁, hd₂]
  · rw [info_emits_iff, info_emits_iff, hlevel, hi₁, hi₂]
  · rw [warn_emits_iff, warn_emits_iff, hlevel, hw₁, hw₂]
  · rw [error_emits_iff, error_emits_iff, hlevel, he₁, he₂]

/-- C16, at a concrete input: the declared variables, and the variables after an
earlier resolution with `G_LOG_LEVEL=ERROR` and custom prefix and flags, both
updated under `G_LOG_LEVEL=WARN`: the threshold is (WARN, 3) in both, and `Info`
is suppressed in both. -/
theorem update_re_resolves_threshold_witness :
    (declared.Canonical ∧
      (UpdateLogLevel (envOf [("G_LOG_LEVEL", "ERROR"), ("G_LOG_PREFIX", "app"),
        ("G_LOG_FORMAT_WARN", "Ldate")]) declared).Canonical) ∧
    ((GetLogLevel (UpdateLogLevel (envOf [("G_LOG_LEVEL", "WARN")]) declared)).name
      = (GetLogLevel (UpdateLogLevel (envOf [("G_LOG_LEVEL", "WARN")])
          (UpdateLogLevel (envOf [("G_LOG_LEVEL", "ERROR"), ("G_LOG_PREFIX", "app"),
            ("G_LOG_FORMAT_WARN", "Ldate")]) declared))).name) ∧
    (GetLogLevel (UpdateLogLevel (envOf [("G_LOG_LEVEL", "WARN")]) declared)).nameRank
      = ("WARN", 3) ∧
    Info (UpdateLogLevel (envOf [("G_LOG_LEVEL", "WARN")]) declared) "x" [] = [] :=
  ⟨⟨declared_canonical, by decide⟩,
    (update_re_resolves_threshold (envOf [("G_LOG_LEVEL", "WARN")])
      (envOf [("G_LOG_LEVEL", "WARN")]) declared
      (UpdateLogLevel (envOf [("G_LOG_LEVEL", "ERROR"), ("G_LOG_PREFIX", "app"),
        ("G_LOG_FORMAT_WARN", "Ldate")]) declared)
      declared_canonical (by decide) rfl "x" "x" [] []).2.1,
    by decide, by decide⟩

/-! ## What an enabled call writes -/

/-- C17: when the rank of the threshold is at most the rank of its own level, each
of Debug, Info, Warn, Error writes exactly one line, Debug and Info to standard
output and Warn and Error to standard error, with `getPrefix` and `formatterFlag`
of its own level and the given format and operands; the prefix and flags of the
threshold are not used. With threshold DEBUG resolved with prefix `dbg` and flags
`Ldate`, `Error` writes with prefix `ERROR: ` and flags 11. -/
theorem enabled_call_writes_own_level_line (s : State) (format : String) (v : List String) :
    (s.logLevel.level ≤ s.logLevelDebug.level → Debug s format v
      = [⟨Stream.stdout, s.logLevelDebug.getPrefix, s.logLevelDebug.formatterFlag, format, v⟩]) ∧
    (s.logLevel.level ≤ s.logLevelInfo.level → Info s format v
      = [⟨Stream.stdout, s.logLevelInfo.getPrefix, s.logLevelInfo.formatterFlag, format, v⟩]) ∧
    (s.logLevel.level ≤ s.logLevelWarn.level → Warn s format v
      = [⟨Stream.stderr, s.logLevelWarn.getPrefix, s.logLevelWarn.formatterFlag, format, v⟩]) ∧
    (s.logLevel.level ≤ s.logLevelError.level → Error s format v
      = [⟨Stream.stderr, s.logLevelError.getPrefix, s.logLevelError.formatterFlag, format, v⟩]) ∧
    (∀ threshold : LogLevel, threshold.level = s.logLevel.level →
      Debug { s with logLevel := threshold } format v = Debug s format v ∧
      Info { s with logLevel := threshold } format v = Info s format v ∧
      Warn { s with logLevel := threshold } format v = Warn s format v ∧
      Error { s with logLevel := threshold } format v = Error s format v) ∧
    (UpdateLogLevel (envOf [("G_LOG_LEVEL", "DEBUG"), ("G_LOG_PREFIX_DEBUG", "dbg"),
      ("G_LOG_FORMAT_DEBUG", "Ldate")]) declared).logLevel = ⟨"DEBUG", 1, "dbg", 1⟩ ∧
    Error (UpdateLogLevel (envOf [("G_LOG_LEVEL", "DEBUG"), ("G_LOG_PREFIX_DEBUG", "dbg"),
      ("G_LOG_FORMAT_DEBUG", "Ldate")]) declared) "x" []
      = [⟨Stream.stderr, "ERROR: ", 11, "x", []⟩] ∧
    Debug (UpdateLogLevel (envOf [("G_LOG_LEVEL", "DEBUG"), ("G_LOG_PREFIX_DEBUG", "dbg"),
      ("G_LOG_FORMAT_DEBUG", "Ldate")]) declared) "x" []
      = [⟨Stream.stdout, "DEBUG: dbg ", 1, "x", []⟩] := by
  refine ⟨?_, ?_, ?_, ?_, ?_, by decide, by decide, by decide⟩
  · intro h
    unfold Debug LogLevel.isLowerOrEqualThan
    rw [if_pos (decide_eq_true h)]
  · intro h
    unfold Info LogLevel.isLowerOrEqualThan
    rw [if_pos (decide_eq_true h)]
  · intro h
    unfold Warn LogLevel.isLowerOrEqualThan
    rw [if_pos (decide_eq_true h)]
  · intro h
    unfold Error LogLevel.isLowerOrEqualThan
    rw [if_pos (decide_eq_true h)]
  · intro threshold h
    simp only [Debug, Info, Warn, Error, LogLevel.isLowerOrEqualThan, h, and_self]

/-! ## Flags across several resolutions -/

theorem run_append_call (s : State) (calls : List Call) (c : Call) :
    run s (calls ++ [c]) = c.apply (run s calls) := by
  unfold run
  rw [List.foldl_append]
  rfl

theorem run_canonical (calls : List Call) (s : State) (hs : s.Canonical) :
    (run s calls).Canonical := by
  induction calls generalizing s with
  | nil => exact hs
  | cons c rest ih =>
    apply ih
    cases c with
    | UpdateLogLevel env => exact canonical_UpdateLogLevel env s hs
    | checkLogLevel env => exact canonical_checkLogLevel env s hs

theorem checkLogLevel_flag_of_empty (env : Env) (s : State) (hs : s.Canonical) :
    ∀ p ∈ levelVars, env ("G_LOG_FORMAT_" ++ p.1) = "" →
      (p.2 (checkLogLevel env s).state).formatterFlag = (p.2 s).formatterFlag := by
  obtain ⟨⟨hdn, -⟩, ⟨hin, -⟩, ⟨hwn, -⟩, ⟨hen, -⟩⟩ := hs
  have key : ∀ (name : String) (l : LogLevel), l.name = name → name ≠ "" →
      env ("G_LOG_FORMAT_" ++ name) = "" → (resolvedLevel env l).formatterFlag = l.formatterFlag := by
    intro name l hname hne hempty
    apply (resolvedLevel_formatterFlag env l name hname hne).2
    rw [hempty]
    exact not_hasRecognized_empty
  intro p hp hempty
  rw [checkLogLevel_state]
  by_cases h0 : env "G_LOG_LEVEL" = ""
  · rw [if_pos h0]
  · rw [if_neg h0]
    simp only [levelVars, List.mem_cons, List.mem_singleton, List.not_mem_nil, or_false] at hp
    rcases hp with rfl | rfl | rfl | rfl
    · exact key "DEBUG" _ hdn (by decide) hempty
    · exact key "INFO" _ hin (by decide) hempty
    · exact key "WARN" _ hwn (by decide) hempty
    · exact key "ERROR" _ hen (by decide) hempty

theorem apply_flag_of_empty (c : Call) (s : State) (hs : s.Canonical) :
    ∀ p ∈ levelVars, c.env ("G_LOG_FORMAT_" ++ p.1) = "" →
      (p.2 (c.apply s)).formatterFlag = (p.2 s).formatterFlag := by
  intro p hp hempty
  cases c with
  | UpdateLogLevel env =>
    have h := checkLogLevel_flag_of_empty env s hs p hp hempty
    simp only [levelVars, List.mem_cons, List.mem_singleton, List.not_mem_nil, or_false] at hp
    rcases hp with rfl | rfl | rfl | rfl <;> exact h
  | checkLogLevel env => exact checkLogLevel_flag_of_empty env s hs p hp hempty

theorem run_flag_of_all_empty (calls : List Call) (s : State) (hs : s.Canonical) :
    ∀ p ∈ levelVars, (∀ c ∈ calls, Call.env c ("G_LOG_FORMAT_" ++ p.1) = "") →
      (p.2 (run s calls)).formatterFlag = (p.2 s).formatterFlag := by
  induction calls generalizing s with
  | nil =>
    intro p _ _
    rfl
  | cons c rest ih =>
    intro p hp hall
    have hc : (c.apply s).Canonical := by
      cases c with
      | UpdateLogLevel env => exact canonical_UpdateLogLevel env s hs
      | checkLogLevel env => exact canonical_checkLogLevel env s hs
    have hstep := apply_flag_of_empty c s hs p hp (hall c (List.mem_cons_self c rest))
    have hrest := ih (c.apply s) hc p hp (fun c' hc' => hall c' (List.mem_cons_of_mem c hc'))
    show (p.2 (run (c.apply s) rest)).formatterFlag = _
    rw [hrest, hstep]

theorem declared_flags_default :
    ∀ p ∈ levelVars, (p.2 declared).formatterFlag = defaultFlags p.1 := by
  decide

/-- C18 (as stated, refuted): after initialisation with nothing set, an update
under `G_LOG_FORMAT_DEBUG=Ldate` and then an update with `G_LOG_FORMAT_DEBUG`
unset, the flags of DEBUG are 1, not the declared 19. -/
theorem flags_not_reset_on_rebuild :
    envOf [("G_LOG_LEVEL", "DEBUG")] ("G_LOG_FORMAT_" ++ "DEBUG") = "" ∧
    (run (initial (envOf []))
      [Call.UpdateLogLevel (envOf [("G_LOG_LEVEL", "DEBUG"), ("G_LOG_FORMAT_DEBUG", "Ldate")]),
       Call.UpdateLogLevel (envOf [("G_LOG_LEVEL", "DEBUG")])]).logLevelDebug.formatterFlag = 1 ∧
    defaultFlags "DEBUG" = 19 ∧
    (run (initial (envOf []))
      [Call.UpdateLogLevel (envOf [("G_LOG_LEVEL", "DEBUG"), ("G_LOG_FORMAT_DEBUG", "Ldate")]),
       Call.UpdateLogLevel (envOf [("G_LOG_LEVEL", "DEBUG")])]).logLevelDebug.formatterFlag
      ≠ defaultFlags "DEBUG" := by
  decide

/-- C18 (amended): for each level L and every sequence of calls after package
initialisation, if `G_LOG_FORMAT_<L>` is unset or empty in the environment of the
last call, then after that call the flags of L are what they were before it; they
are the declared flags of L (19 for DEBUG, INFO, WARN and 11 for ERROR) when the
variable was unset or empty at initialisation and in every call of the
sequence. -/
theorem empty_format_keeps_previous_flags (env₀ : Env) (calls : List Call) (c : Call) :
    ∀ p ∈ levelVars,
      (Call.env c ("G_LOG_FORMAT_" ++ p.1) = "" →
        (p.2 (run (initial env₀) (calls ++ [c]))).formatterFlag
          = (p.2 (run (initial env₀) calls)).formatterFlag) ∧
      (env₀ ("G_LOG_FORMAT_" ++ p.1) = "" →
        (∀ c₁ ∈ calls ++ [c], Call.env c₁ ("G_LOG_FORMAT_" ++ p.1) = "") →
        (p.2 (run (initial env₀) (calls ++ [c]))).formatterFlag = defaultFlags p.1) := by
  intro p hp
  constructor
  · intro hempty
    rw [run_append_call]
    exact apply_flag_of_empty c _
      (run_canonical calls _ (canonical_UpdateLogLevel env₀ declared declared_canonical))
      p hp hempty
  · intro h0 hall
    have hrun : run (initial env₀) (calls ++ [c])
        = run declared (Call.UpdateLogLevel env₀ :: (calls ++ [c])) := rfl
    rw [hrun, run_flag_of_all_empty _ declared declared_canonical p hp, declared_flags_default p hp]
    intro c₁ hc₁
    rcases List.mem_cons.mp hc₁ with rfl | hmem
    · exact h0
    · exact hall c₁ hmem

/-- C18 (amended), at a concrete input: after an update under
`G_LOG_FORMAT_DEBUG=Ldate`, an update with the variable unset keeps the flags of
DEBUG at 1. -/
theorem empty_format_keeps_previous_flags_witness :
    ("DEBUG", State.logLevelDebug) ∈ levelVars ∧
    envOf [("G_LOG_LEVEL", "DEBUG")] ("G_LOG_FORMAT_" ++ "DEBUG") = "" ∧
    (run (initial (envOf []))
      ([Call.UpdateLogLevel (envOf [("G_LOG_LEVEL", "DEBUG"), ("G_LOG_FORMAT_DEBUG", "Ldate")])]
        ++ [Call.UpdateLogLevel (envOf [("G_LOG_LEVEL", "DEBUG")])])).logLevelDebug.formatterFlag
      = (run (initial (envOf []))
        [Call.UpdateLogLevel (envOf [("G_LOG_LEVEL", "DEBUG"),
          ("G_LOG_FORMAT_DEBUG", "Ldate")])]).logLevelDebug.formatterFlag ∧
    (run (initial (envOf []))
      [Call.UpdateLogLevel (envOf [("G_LOG_LEVEL", "DEBUG"),
        ("G_LOG_FORMAT_DEBUG", "Ldate")])]).logLevelDebug.formatterFlag = 1 :=
  ⟨by simp [levelVars], by decide,
    (empty_format_keeps_previous_flags (envOf [])
      [Call.UpdateLogLevel (envOf [("G_LOG_LEVEL", "DEBUG"), ("G_LOG_FORMAT_DEBUG", "Ldate")])]
      (Call.UpdateLogLevel (envOf [("G_LOG_LEVEL", "DEBUG")]))
      ("DEBUG", State.logLevelDebug) (by simp [levelVars])).1 (by decide),
    by decide⟩

/-! ## Idempotence -/

theorem resolvedLevel_idempotent (env : Env) (l : LogLevel) :
    resolvedLevel env (resolvedLevel env l) = resolvedLevel env l := by
  unfold resolvedLevel
  simp only
  split_ifs <;> rfl

/-- C19: for every prior state and environment, running `checkLogLevel` twice under
the same environment gives the same package variables, the same returned level and
the same internal line as running it once, and `UpdateLogLevel` twice gives the
same state, `logLevel` included, as once. -/
theorem resolution_idempotent (env : Env) (s : State) :
    (checkLogLevel env (checkLogLevel env s).state).state = (checkLogLevel env s).state ∧
    (checkLogLevel env (checkLogLevel env s).state).ret = (checkLogLevel env s).ret ∧
    (checkLogLevel env (checkLogLevel env s).state).out = (checkLogLevel env s).out ∧
    UpdateLogLevel env (UpdateLogLevel env s) = UpdateLogLevel env s ∧
    GetLogLevel (UpdateLogLevel env (UpdateLogLevel env s)) = GetLogLevel (UpdateLogLevel env s) ∧
    (checkLogLevel env (UpdateLogLevel env s)).ret = (checkLogLevel env s).ret := by
  have hname : ∀ l, (resolvedLevel env l).name = l.name := fun _ => rfl
  have hcheck : checkLogLevel env (checkLogLevel env s).state = checkLogLevel env s := by
    by_cases h0 : env "G_LOG_LEVEL" = ""
    · rw [checkLogLevel_eq env s, if_pos h0, checkLogLevel_eq, if_pos h0]
    · rw [checkLogLevel_eq env s, if_neg h0, checkLogLevel_eq, if_neg h0]
      simp only [resolvedLevel_idempotent, hname]
  have hupdate : UpdateLogLevel env (UpdateLogLevel env s) = UpdateLogLevel env s := by
    unfold UpdateLogLevel
    by_cases h0 : env "G_LOG_LEVEL" = ""
    · simp only [checkLogLevel_eq, if_pos h0]
    · simp only [checkLogLevel_eq, if_neg h0, resolvedLevel_idempotent, hname]
  have hret : (checkLogLevel env (UpdateLogLevel env s)).ret = (checkLogLevel env s).ret := by
    have h : (UpdateLogLevel env (UpdateLogLevel env s)).logLevel
        = (UpdateLogLevel env s).logLevel := by rw [hupdate]
    exact h
  refine ⟨?_, ?_, ?_, hupdate, ?_, hret⟩
  · rw [hcheck]
  · rw [hcheck]
  · rw [hcheck]
  · rw [hupdate]

/-! ## Sum and bitwise OR of flag values -/

set_option maxRecDepth 100000 in
theorem small_add_eq_or : ∀ a < 128, ∀ b < 128, a &&& b = 0 → a + b = a ||| b := by
  decide

theorem tokenValue_lt (piece : String) : tokenValue piece < 128 := by
  unfold tokenValue
  split_ifs <;> decide

theorem orAll_cons (a : Nat) (values : List Nat) : orAll (a :: values) = a ||| orAll values :=
  rfl

theorem orAll_lt (values : List Nat) (h : ∀ a ∈ values, a < 128) : orAll values < 128 := by
  induction values with
  | nil => decide
  | cons a rest ih =>
    rw [orAll_cons]
    have ha : a < 2 ^ 7 := h a (List.mem_cons_self a rest)
    have hr : orAll rest < 2 ^ 7 := ih (fun b hb => h b (List.mem_cons_of_mem a hb))
    exact Nat.or_lt_two_pow ha hr

theorem and_orAll_eq_zero (a : Nat) (values : List Nat) (h : ∀ b ∈ values, a &&& b = 0) :
    a &&& orAll values = 0 := by
  induction values with
  | nil => simp [orAll]
  | cons b rest ih =>
    rw [orAll_cons, Nat.and_or_distrib_left, h b (List.mem_cons_self b rest),
      ih (fun c hc => h c (List.mem_cons_of_mem b hc))]
    rfl

theorem sum_eq_orAll (values : List Nat) (hlt : ∀ a ∈ values, a < 128)
    (hdisjoint : values.Pairwise (fun a b => a &&& b = 0)) :
    values.sum = orAll values := by
  induction values with
  | nil => rfl
  | cons a rest ih =>
    have hrest : ∀ b ∈ rest, b < 128 := fun b hb => hlt b (List.mem_cons_of_mem a hb)
    rw [List.pairwise_cons] at hdisjoint
    rw [List.sum_cons, orAll_cons, ih hrest hdisjoint.2]
    exact small_add_eq_or a (hlt a (List.mem_cons_self a rest)) (orAll rest) (orAll_lt rest hrest)
      (and_orAll_eq_zero a rest hdisjoint.1)

theorem testBit_orAll (values : List Nat) (i : Nat) :
    (orAll values).testBit i = true ↔ ∃ a ∈ values, a.testBit i = true := by
  induction values with
  | nil => simp [orAll]
  | cons a rest ih =>
    rw [orAll_cons, Nat.testBit_or, Bool.or_eq_true, ih]
    simp

theorem sum_map_filter_recognized (pieces : List String) :
    (pieces.map tokenValue).sum
      = ((pieces.filter (fun piece => decide (piece ∈ recognizedTokens))).map tokenValue).sum := by
  induction pieces with
  | nil => rfl
  | cons piece rest ih =>
    by_cases h : piece ∈ recognizedTokens
    · rw [List.filter_cons_of_pos (by simpa using h), List.map_cons, List.map_cons,
        List.sum_cons, List.sum_cons, ih]
    · have hzero : tokenValue piece = 0 := by
        by_contra hne
        exact h ((tokenValue_pos_iff piece).mp (Nat.pos_of_ne_zero hne))
      rw [List.filter_cons_of_neg (by simpa using h), List.map_cons, List.sum_cons, hzero,
        Nat.zero_add, ih]

theorem formatSum_eq_matched_sum (value : String) :
    formatSum value = ((matchedTokens value).map tokenValue).sum :=
  sum_map_filter_recognized (split value)

theorem mem_matchedTokens_recognized (value token : String) (h : token ∈ matchedTokens value) :
    token ∈ recognizedTokens := by
  unfold matchedTokens at h
  simpa using (List.mem_filter.mp h).2

theorem distinct_tokens_disjoint (a b : String) (ha : a ∈ recognizedTokens)
    (hb : b ∈ recognizedTokens) (hne : a ≠ b)
    (hab : a = "LstdFlags" → b ≠ "Ldate" ∧ b ≠ "Ltime")
    (hba : b = "LstdFlags" → a ≠ "Ldate" ∧ a ≠ "Ltime") :
    tokenValue a &&& tokenValue b = 0 := by
  unfold recognizedTokens at ha hb
  simp only [List.mem_cons, List.mem_singleton, List.not_mem_nil, or_false] at ha hb
  rcases ha with rfl | rfl | rfl | rfl | rfl | rfl | rfl | rfl <;>
    rcases hb with rfl | rfl | rfl | rfl | rfl | rfl | rfl | rfl <;>
    first
    | decide
    | exact absurd rfl hne
    | exact absurd rfl (hab rfl).1
    | exact absurd rfl (hab rfl).2
    | exact absurd rfl (hba rfl).1
    | exact absurd rfl (hba rfl).2

theorem matched_values_disjoint (tokens : List String)
    (hrec : ∀ t ∈ tokens, t ∈ recognizedTokens) (hnodup : tokens.Nodup)
    (hstd : "LstdFlags" ∈ tokens → "Ldate" ∉ tokens ∧ "Ltime" ∉ tokens) :
    (tokens.map tokenValue).Pairwise (fun a b => a &&& b = 0) := by
  rw [List.pairwise_map]
  refine List.Pairwise.imp_of_mem ?_ hnodup
  intro a b ha hb hne
  apply distinct_tokens_disjoint a b (hrec a ha) (hrec b hb) hne
  · intro hstda
    subst hstda
    exact ⟨fun e => (hstd ha).1 (e ▸ hb), fun e => (hstd ha).2 (e ▸ hb)⟩
  · intro hstdb
    subst hstdb
    exact ⟨fun e => (hstd hb).1 (e ▸ ha), fun e => (hstd hb).2 (e ▸ ha)⟩

/-- C20: when the recognized pieces of the format value are pairwise distinct and
`LstdFlags` does not occur together with `Ldate` or `Ltime`, the result of
`formatter` is the bitwise OR of the values of the recognized pieces; it is then
at most 127 and has exactly the bits that some recognized piece names. -/
theorem formatter_eq_bitwise_or (env : Env) (level : String)
    (hnodup : (matchedTokens (env (formatKey level))).Nodup)
    (hstd : "LstdFlags" ∈ matchedTokens (env (formatKey level)) →
      "Ldate" ∉ matchedTokens (env (formatKey level)) ∧
      "Ltime" ∉ matchedTokens (env (formatKey level))) :
    formatter env level = orAll ((matchedTokens (env (formatKey level))).map tokenValue) ∧
    formatter env level ≤ 127 ∧
    (∀ i : Nat, (formatter env level).testBit i = true ↔
      ∃ token ∈ matchedTokens (env (formatKey level)), (tokenValue token).testBit i = true) := by
  have hlt : ∀ a ∈ (matchedTokens (env (formatKey level))).map tokenValue, a < 128 := by
    intro a ha
    obtain ⟨t, -, rfl⟩ := List.mem_map.mp ha
    exact tokenValue_lt t
  have hdisjoint := matched_values_disjoint (matchedTokens (env (formatKey level)))
    (fun t ht => mem_matchedTokens_recognized _ t ht) hnodup hstd
  have heq : formatter env level
      = orAll ((matchedTokens (env (formatKey level))).map tokenValue) := by
    rw [formatter_eq_formatSum, formatSum_eq_matched_sum, sum_eq_orAll _ hlt hdisjoint]
  refine ⟨heq, ?_, ?_⟩
  · rw [heq]
    exact Nat.le_of_lt_succ (orAll_lt _ hlt)
  · intro i
    rw [heq, testBit_orAll]
    constructor
    · rintro ⟨a, ha, hbit⟩
      obtain ⟨t, ht, rfl⟩ := List.mem_map.mp ha
      exact ⟨t, ht, hbit⟩
    · rintro ⟨t, ht, hbit⟩
      exact ⟨tokenValue t, List.mem_map.mpr ⟨t, ht, rfl⟩, hbit⟩

/-- C20, at a concrete input: `G_LOG_FORMAT_INFO=Lshortfile|x|LstdFlags|LUTC` has the
distinct recognized pieces `Lshortfile`, `LstdFlags`, `LUTC`; the result 51 is the
bitwise OR of 16, 3 and 32. -/
theorem formatter_eq_bitwise_or_witness :
    (matchedTokens (envOf [("G_LOG_FORMAT_INFO", "Lshortfile|x|LstdFlags|LUTC")]
      (formatKey "INFO"))) = ["Lshortfile", "LstdFlags", "LUTC"] ∧
    formatter (envOf [("G_LOG_FORMAT_INFO", "Lshortfile|x|LstdFlags|LUTC")]) "INFO"
      = orAll ((matchedTokens (envOf [("G_LOG_FORMAT_INFO", "Lshortfile|x|LstdFlags|LUTC")]
          (formatKey "INFO"))).map tokenValue) ∧
    formatter (envOf [("G_LOG_FORMAT_INFO", "Lshortfile|x|LstdFlags|LUTC")]) "INFO" = 51 ∧
    formatter (envOf [("G_LOG_FORMAT_INFO", "Ldate|LstdFlags")]) "INFO" = 4 ∧
    orAll [tokenValue "Ldate", tokenValue "LstdFlags"] = 3 :=
  ⟨by decide,
    (formatter_eq_bitwise_or (envOf [("G_LOG_FORMAT_INFO", "Lshortfile|x|LstdFlags|LUTC")])
      "INFO" (by decide) (by decide)).1,
    by decide, by decide, by decide⟩

/-! ## The global format variable -/

theorem loadPrefix_congr (env₁ env₂ : Env) (level : String)
    (hlevel : env₁ ("G_LOG_PREFIX" ++ "_" ++ level) = env₂ ("G_LOG_PREFIX" ++ "_" ++ level))
    (hglobal : env₁ "G_LOG_PREFIX" = env₂ "G_LOG_PREFIX") :
    loadPrefix env₁ level = loadPrefix env₂ level := by
  unfold loadPrefix
  simp only [hlevel, hglobal]

theorem formatter_congr (env₁ env₂ : Env) (level : String)
    (hkey : env₁ (formatKey level) = env₂ (formatKey level)) :
    formatter env₁ level = formatter env₂ level := by
  rw [formatter_eq_formatSum, formatter_eq_formatSum, hkey]

theorem resolvedLevel_setenv_global_format (env : Env) (value : String) (l : LogLevel)
    (hname : l.name ∈ ["DEBUG", "INFO", "WARN", "ERROR"]) :
    resolvedLevel (setenv env "G_LOG_FORMAT" value) l = resolvedLevel env l := by
  have hglobal : setenv env "G_LOG_FORMAT" value "G_LOG_PREFIX" = env "G_LOG_PREFIX" := by
    unfold setenv
    rw [if_neg (by decide)]
  have hboth : loadPrefix (setenv env "G_LOG_FORMAT" value) l.name = loadPrefix env l.name ∧
      formatter (setenv env "G_LOG_FORMAT" value) l.name = formatter env l.name := by
    simp only [List.mem_cons, List.mem_singleton, List.not_mem_nil, or_false] at hname
    rcases hname with h | h | h | h <;> rw [h] <;> constructor
    all_goals first
      | (apply loadPrefix_congr _ _ _ _ hglobal
         unfold setenv
         rw [if_neg (by decide)])
      | (apply formatter_congr
         unfold setenv
         rw [if_neg (by decide)])
  unfold resolvedLevel
  rw [hboth.1, hboth.2]

/-- C7 (amended): `G_LOG_FORMAT` is not a fallback for the per-level format flags.
From any state whose levels keep their declared names and ranks, `checkLogLevel`
gives the same result whatever value `G_LOG_FORMAT` is set to; for each level L
with `G_LOG_FORMAT_<L>` unset or empty, the flags of L after `checkLogLevel` are
what they were before; `formatter` reads `G_LOG_FORMAT` for the empty level
argument only, which gives the sum of its recognized tokens. -/
theorem global_format_ignored_by_resolution (env : Env) (s : State) (hs : s.Canonical)
    (value : String) :
    checkLogLevel (setenv env "G_LOG_FORMAT" value) s = checkLogLevel env s ∧
    (∀ p ∈ levelVars, env ("G_LOG_FORMAT_" ++ p.1) = "" →
      (p.2 (checkLogLevel (setenv env "G_LOG_FORMAT" value) s).state).formatterFlag
        = (p.2 s).formatterFlag) ∧
    formatter (setenv env "G_LOG_FORMAT" value) "" = formatSum value := by
  have hcheck : checkLogLevel (setenv env "G_LOG_FORMAT" value) s = checkLogLevel env s := by
    obtain ⟨⟨hdn, -⟩, ⟨hin, -⟩, ⟨hwn, -⟩, ⟨hen, -⟩⟩ := hs
    have hlevel : setenv env "G_LOG_FORMAT" value "G_LOG_LEVEL" = env "G_LOG_LEVEL" := by
      unfold setenv
      rw [if_neg (by decide)]
    rw [checkLogLevel_eq, checkLogLevel_eq env s, hlevel,
      resolvedLevel_setenv_global_format env value s.logLevelDebug (by rw [hdn]; decide),
      resolvedLevel_setenv_global_format env value s.logLevelInfo (by rw [hin]; decide),
      resolvedLevel_setenv_global_format env value s.logLevelWarn (by rw [hwn]; decide),
      resolvedLevel_setenv_global_format env value s.logLevelError (by rw [hen]; decide)]
  refine ⟨hcheck, ?_, ?_⟩
  · intro p hp hempty
    rw [hcheck]
    exact checkLogLevel_flag_of_empty env s hs p hp hempty
  · rw [formatter_eq_formatSum]
    have hkey : formatKey "" = "G_LOG_FORMAT" := by decide
    rw [hkey]
    unfold setenv
    rw [if_pos rfl]

/-- C7 (amended), at a concrete input: from the declared variables with
`G_LOG_LEVEL=DEBUG` and `G_LOG_FORMAT_DEBUG` unset, setting `G_LOG_FORMAT=Ldate`
changes nothing in the result of `checkLogLevel`, and the flags of DEBUG stay 19. -/
theorem global_format_ignored_by_resolution_witness :
    declared.Canonical ∧
    checkLogLevel (setenv (envOf [("G_LOG_LEVEL", "DEBUG")]) "G_LOG_FORMAT" "Ldate") declared
      = checkLogLevel (envOf [("G_LOG_LEVEL", "DEBUG")]) declared ∧
    (checkLogLevel (setenv (envOf [("G_LOG_LEVEL", "DEBUG")]) "G_LOG_FORMAT" "Ldate")
      declared).state.logLevelDebug.formatterFlag = 19 ∧
    formatSum "Ldate" = 1 :=
  ⟨declared_canonical,
    (global_format_ignored_by_resolution (envOf [("G_LOG_LEVEL", "DEBUG")]) declared
      declared_canonical "Ldate").1,
    by decide, by decide⟩

end Glogger
